import Mathlib

/-!
Verification development for the white-label course-selling platform
(src/app.js).  The in-memory store and the commerce / fulfillment
operations are shallowly embedded: JavaScript Maps become association
lists keyed by strings, JS numbers become rationals, ISO timestamp
strings become integer epochs, random id / token generation becomes a
fresh counter threaded through the state, and thrown string-tagged
errors become values of type Except String.
-/

namespace Plataforma

/-! ### Association-list maps (JS `Map`)

`mget`, `mset`, `mhas` model `Map.get`, `Map.set`, `Map.has`.  A `mset`
on an existing key replaces the value in place (keeping insertion
order, as a JS Map does); a fresh key is appended at the end, matching
JS iteration order. -/

def mget {α : Type} : List (String × α) → String → Option α
  | [], _ => none
  | (k', v) :: rest, k => if k' = k then some v else mget rest k

def mset {α : Type} : List (String × α) → String → α → List (String × α)
  | [], k, v => [(k, v)]
  | (k', v') :: rest, k, v =>
      if k' = k then (k, v) :: rest else (k', v') :: mset rest k v

def mhas {α : Type} (l : List (String × α)) (k : String) : Bool :=
  (mget l k).isSome

theorem mget_mset_self {α : Type} (l : List (String × α)) (k : String) (v : α) :
    mget (mset l k v) k = some v := by
  induction l with
  | nil => simp [mget, mset]
  | cons hd tl ih =>
      by_cases h : hd.1 = k
      · simp [mget, mset, h]
      · simp [mget, mset, h, ih]

theorem mget_mset_ne {α : Type} (l : List (String × α)) (k k' : String) (v : α)
    (h : k ≠ k') : mget (mset l k v) k' = mget l k' := by
  induction l with
  | nil => simp [mget, mset, h]
  | cons hd tl ih =>
      by_cases hh : hd.1 = k
      · simp [mget, mset, hh, h]
      · by_cases hk : hd.1 = k'
        · simp [mget, mset, hh, hk, Ne.symm h]
        · simp [mget, mset, hh, hk, ih]

theorem length_mset_of_mget {α : Type} (l : List (String × α)) (k : String) (v w : α)
    (h : mget l k = some w) : (mset l k v).length = l.length := by
  induction l with
  | nil => simp [mget] at h
  | cons hd tl ih =>
      by_cases hh : hd.1 = k
      · simp [mset, hh]
      · simp [mget, hh] at h
        simp [mset, hh, ih h]

instance {ε α : Type} [DecidableEq ε] [DecidableEq α] : DecidableEq (Except ε α) :=
  fun a b =>
    match a, b with
    | .error e, .error f =>
        if h : e = f then .isTrue (h ▸ rfl)
        else .isFalse (fun hh => h (Except.error.inj hh))
    | .error _, .ok _ => .isFalse Except.noConfusion
    | .ok _, .error _ => .isFalse Except.noConfusion
    | .ok x, .ok y =>
        if h : x = y then .isTrue (h ▸ rfl)
        else .isFalse (fun hh => h (Except.ok.inj hh))

/-! ### JS string operations

The JS string methods are modelled over the character list of the
string (structural recursion), so that concrete runs reduce inside the
kernel; all strings involved are ASCII, where these agree with the JS
semantics character for character. -/

def jsTrim (s : String) : String :=
  ⟨((s.data.dropWhile Char.isWhitespace).reverse.dropWhile Char.isWhitespace).reverse⟩

def jsToLower (s : String) : String := ⟨s.data.map Char.toLower⟩

def jsToUpper (s : String) : String := ⟨s.data.map Char.toUpper⟩

def jsStartsWith (s pat : String) : Bool := pat.data.isPrefixOf s.data

def jsEndsWith (s pat : String) : Bool := pat.data.isSuffixOf s.data

def jsDrop (s : String) (n : Nat) : String := ⟨s.data.drop n⟩

def jsTakeWhile (p : Char → Bool) (s : String) : String := ⟨s.data.takeWhile p⟩

def jsDropLast (s : String) : String := ⟨s.data.dropLast⟩

def jsContains (s : String) (c : Char) : Bool := s.data.contains c

def jsLength (s : String) : Nat := s.data.length

def jsAll (p : Char → Bool) (s : String) : Bool := s.data.all p

/-! ### JS rational arithmetic

JS numbers are modelled as rationals.  Addition, subtraction,
multiplication and division by a natural number are expressed through
mkRat on numerators and denominators (definitionally equal to the
field operations of ℚ — see the `_eq` lemmas — but reducible by the
kernel, which the Rat field instances are not). -/

def qAdd (a b : ℚ) : ℚ := mkRat (a.num * b.den + b.num * a.den) (a.den * b.den)

def qSub (a b : ℚ) : ℚ := mkRat (a.num * b.den - b.num * a.den) (a.den * b.den)

def qMul (a b : ℚ) : ℚ := mkRat (a.num * b.num) (a.den * b.den)

def qDivNat (a : ℚ) (n : Nat) : ℚ := mkRat a.num (a.den * n)

theorem qAdd_eq (a b : ℚ) : qAdd a b = a + b := by
  have ha : ((a.den : ℚ)) ≠ 0 := Nat.cast_ne_zero.mpr a.den_nz
  have hb : ((b.den : ℚ)) ≠ 0 := Nat.cast_ne_zero.mpr b.den_nz
  rw [qAdd, Rat.mkRat_eq_div]
  push_cast
  conv_rhs => rw [← Rat.num_div_den a, ← Rat.num_div_den b]
  field_simp

theorem qSub_eq (a b : ℚ) : qSub a b = a - b := by
  have ha : ((a.den : ℚ)) ≠ 0 := Nat.cast_ne_zero.mpr a.den_nz
  have hb : ((b.den : ℚ)) ≠ 0 := Nat.cast_ne_zero.mpr b.den_nz
  rw [qSub, Rat.mkRat_eq_div]
  push_cast
  conv_rhs => rw [← Rat.num_div_den a, ← Rat.num_div_den b]
  field_simp
  ring

theorem qMul_eq (a b : ℚ) : qMul a b = a * b := by
  have ha : ((a.den : ℚ)) ≠ 0 := Nat.cast_ne_zero.mpr a.den_nz
  have hb : ((b.den : ℚ)) ≠ 0 := Nat.cast_ne_zero.mpr b.den_nz
  rw [qMul, Rat.mkRat_eq_div]
  push_cast
  conv_rhs => rw [← Rat.num_div_den a, ← Rat.num_div_den b]
  field_simp

theorem qDivNat_eq (a : ℚ) (n : Nat) : qDivNat a n = a / n := by
  rcases Nat.eq_zero_or_pos n with hn | hn
  · subst hn
    simp [qDivNat, Rat.mkRat_eq_div]
  · have ha : ((a.den : ℚ)) ≠ 0 := Nat.cast_ne_zero.mpr a.den_nz
    have hnn : ((n : ℚ)) ≠ 0 := Nat.cast_ne_zero.mpr hn.ne'
    rw [qDivNat, Rat.mkRat_eq_div]
    push_cast
    conv_rhs => rw [← Rat.num_div_den a]
    field_simp

/-! ### Utilities from src/app.js -/

/-- normalizeHost: trim, lowercase, strip one trailing dot. -/
def normalizeHost (host : String) : String :=
  if host = "" then ""
  else
    let h := jsToLower (jsTrim host)
    if jsEndsWith h "." then jsDropLast h else h

/-- normalizeDomain: trim, lowercase, strip an http(s) scheme, cut at
the first slash or colon, strip one trailing dot. -/
def normalizeDomain (domain : String) : String :=
  let d0 := jsToLower (jsTrim domain)
  let d1 :=
    if jsStartsWith d0 "https://" then jsDrop d0 8
    else if jsStartsWith d0 "http://" then jsDrop d0 7
    else d0
  let d2 := jsTakeWhile (fun c => c ≠ '/') d1
  let d3 := jsTakeWhile (fun c => c ≠ ':') d2
  if jsEndsWith d3 "." then jsDropLast d3 else d3

def isValidDomainLike (value : String) : Bool :=
  let v := normalizeDomain value
  ¬ (v = "") ∧ ¬ jsContains v ' ' ∧ jsContains v '.' ∧ 4 ≤ jsLength v

/-- hmacSha256 is modelled symbolically: a length-prefixed pairing of
secret and message standing in for the real MAC.  The claims only use
that equal inputs give equal MACs and (for a fixed secret) distinct
messages give distinct MACs, which the real HMAC provides up to
collision resistance. -/
def hmacSha256 (secret message : String) : String :=
  "hmac_" ++ toString secret.length ++ "_" ++ secret ++ "_" ++ message

theorem hmacSha256_inj_message (secret m1 m2 : String)
    (h : hmacSha256 secret m1 = hmacSha256 secret m2) : m1 = m2 := by
  unfold hmacSha256 at h
  have hd := congrArg String.data h
  simp only [String.data_append] at hd
  exact String.ext (List.append_cancel_left hd)

/-- JSON.stringify of a string value.  The ids, statuses and timestamps
serialized here contain no quote, backslash or control characters, so
JSON escaping is the identity and is elided. -/
def jsonStr (s : String) : String := "\"" ++ s ++ "\""

/-- round2: Math.round(n * 100) / 100, with JS Math.round x = floor (x + 1/2). -/
def round2 (n : ℚ) : ℚ := mkRat ⌊qAdd (qMul n 100) (mkRat 1 2)⌋ 100

theorem round2_eq (n : ℚ) : round2 n = (⌊n * 100 + 1/2⌋ : ℤ) / 100 := by
  rw [round2, qAdd_eq, qMul_eq, Rat.mkRat_eq_div, Rat.mkRat_eq_div]
  push_cast
  rfl

/-! ### Data model -/

structure School where
  id : String
  name : String
  slug : String
  status : String
  createdAt : Int
  updatedAt : Int
deriving DecidableEq, Repr

structure DomainConfig where
  id : String
  schoolId : String
  type : String
  domain : String
  verified : Bool
  verificationToken : Option String
  createdAt : Int
  verifiedAt : Option Int
deriving DecidableEq, Repr

structure Branding where
  schoolId : String
  publicName : String
  primaryColor : String
  secondaryColor : String
  logoUrl : Option String
  faviconUrl : Option String
  updatedAt : Int
deriving DecidableEq, Repr

structure Localization where
  schoolId : String
  defaultLanguage : String
  defaultCurrency : String
  timezone : String
  updatedAt : Int
deriving DecidableEq, Repr

structure GatewayConfig where
  schoolId : String
  provider : String
  mode : String
  webhookSecret : String
  updatedAt : Int
deriving DecidableEq, Repr

/-- Stored promo.  untilIso is the ISO string modelled by its parsed
epoch value; none models a stored string that does not parse to a
valid date (the isNaN branch of getEffectivePrice). -/
structure Promo where
  type : String
  value : ℚ
  untilIso : Option Int
deriving DecidableEq, Repr

/-- Raw promo input to normalizePromo.  The outer Option models an
absent / empty untilIso field (rejected with PROMO_UNTIL_REQUIRED);
the inner Option models whether the supplied string parses. -/
structure PromoSpec where
  type : String
  value : ℚ
  untilIso : Option (Option Int)
deriving DecidableEq, Repr

structure Pricing where
  price : ℚ
  currency : String
  promo : Option Promo
deriving DecidableEq, Repr

structure Lesson where
  title : String
  externalUrl : Option String
deriving DecidableEq, Repr

structure CourseModule where
  title : String
  objectives : List String
  lessons : List Lesson
deriving DecidableEq, Repr

structure CourseStructure where
  modules : List CourseModule
deriving DecidableEq, Repr

structure FullLesson where
  title : String
  body : String
  videoScript : String
  slides : List String
deriving DecidableEq, Repr

structure QuizQuestion where
  q : String
  options : List String
  answer : String
deriving DecidableEq, Repr

structure Quiz where
  title : String
  questions : List QuizQuestion
deriving DecidableEq, Repr

structure FullModule where
  title : String
  objectives : List String
  lessons : List FullLesson
  quiz : Quiz
deriving DecidableEq, Repr

structure Ebook where
  type : String
  title : String
  chapters : List String
deriving DecidableEq, Repr

structure Materials where
  type : String
  items : List String
deriving DecidableEq, Repr

structure Artifacts where
  ebook : Ebook
  materials : Materials
deriving DecidableEq, Repr

structure FullContent where
  generatedAt : Int
  modules : List FullModule
  artifacts : Artifacts
deriving DecidableEq, Repr

structure AiInputs where
  theme : String
  audience : String
  level : String
  hours : ℚ
  language : String
deriving DecidableEq, Repr

structure Course where
  id : String
  schoolId : String
  type : String
  title : String
  description : String
  tags : List String
  category : Option String
  pricing : Pricing
  aiInputs : Option AiInputs
  structure_ : Option CourseStructure
  fullContent : Option FullContent
  state : String
  createdAt : Int
  updatedAt : Int
  publishedAt : Option Int
deriving DecidableEq, Repr

structure Order where
  id : String
  schoolId : String
  courseId : String
  buyerEmail : String
  amount : ℚ
  currency : String
  status : String
  createdAt : Int
  updatedAt : Int
  paidAt : Option Int
deriving DecidableEq, Repr

structure Payment where
  id : String
  schoolId : String
  orderId : String
  provider : String
  status : String
  createdAt : Int
  updatedAt : Int
deriving DecidableEq, Repr

/-- The webhook payload built by startDemoCheckout.  ts is the ISO
timestamp modelled as an epoch integer. -/
structure WebhookPayload where
  provider : String
  eventId : String
  schoolId : String
  orderId : String
  paymentId : String
  result : String
  ts : Int
deriving DecidableEq, Repr

structure Snapshot where
  ok : Bool
  provider : String
  eventId : String
  schoolId : String
  orderId : String
  paymentId : String
  orderStatus : String
deriving DecidableEq, Repr

structure WebhookEvent where
  id : String
  provider : String
  schoolId : String
  orderId : String
  paymentId : String
  receivedAt : Int
  payload : WebhookPayload
  signature : String
  resultSnapshot : Snapshot
deriving DecidableEq, Repr

structure Enrollment where
  id : String
  schoolId : String
  buyerEmail : String
  courseId : String
  orderId : String
  createdAt : Int
deriving DecidableEq, Repr

structure AuditEvent where
  id : String
  schoolId : Option String
  action : String
  payload : List (String × String)
  createdAt : Int
deriving DecidableEq, Repr

structure WebhookDelivery where
  payload : WebhookPayload
  signature : String
deriving DecidableEq, Repr

structure CheckoutResult where
  checkoutUrl : String
  webhook : WebhookDelivery
deriving DecidableEq, Repr

/-- The in-memory store plus its indices, a fresh-id counter standing
in for crypto.randomBytes, and the current clock standing in for
new Date() / nowIso(). -/
structure DB where
  schools : List (String × School)
  domains : List (String × DomainConfig)
  branding : List (String × Branding)
  localization : List (String × Localization)
  gateway : List (String × GatewayConfig)
  courses : List (String × Course)
  orders : List (String × Order)
  payments : List (String × Payment)
  webhookEvents : List (String × WebhookEvent)
  enrollments : List (String × Enrollment)
  audit : List (String × AuditEvent)
  byCustomDomain : List (String × String)
  bySubdomain : List (String × String)
  coursesBySchool : List (String × List String)
  ordersBySchool : List (String × List String)
  ordersByBuyer : List (String × List String)
  ordersByCourse : List (String × List String)
  enrollBySchoolBuyerCourse : List (String × String)
  nextId : Nat
  now : Int
deriving DecidableEq, Repr

def db0 : DB :=
  ⟨[], [], [], [], [], [], [], [], [], [], [], [], [], [], [], [], [], [], 0, 0⟩

/-- generateId: random hex ids are modelled by a fresh counter. -/
def generateId (pfx : String) (s : DB) : String × DB :=
  (pfx ++ "_" ++ toString s.nextId, { s with nextId := s.nextId + 1 })

/-- randomToken: random hex tokens are modelled by the same fresh
counter (the byte-length argument of the source is immaterial). -/
def randomToken (s : DB) : String × DB :=
  ("tok_" ++ toString s.nextId, { s with nextId := s.nextId + 1 })

/-- stableStringify specialized to the webhook payload: keys sorted
ascending (eventId, orderId, paymentId, provider, result, schoolId,
ts), no whitespace. -/
def stableStringifyPayload (p : WebhookPayload) : String :=
  "\x7b\"eventId\":" ++ jsonStr p.eventId ++
  ",\"orderId\":" ++ jsonStr p.orderId ++
  ",\"paymentId\":" ++ jsonStr p.paymentId ++
  ",\"provider\":" ++ jsonStr p.provider ++
  ",\"result\":" ++ jsonStr p.result ++
  ",\"schoolId\":" ++ jsonStr p.schoolId ++
  ",\"ts\":" ++ jsonStr (toString p.ts) ++ "\x7d"

/-! ### Audit -/

def auditLog (schoolId : Option String) (action : String)
    (payload : List (String × String)) (s : DB) : AuditEvent × DB :=
  let (aid, s1) := generateId "aud" s
  let evt : AuditEvent := ⟨aid, schoolId, action, payload, s1.now⟩
  (evt, { s1 with audit := mset s1.audit aid evt })

/-! ### Schools (multi-tenant) -/

def assertSchoolActive (schoolId : String) (s : DB) : Except String School :=
  match mget s.schools schoolId with
  | none => .error "SCHOOL_NOT_FOUND"
  | some school =>
      if school.status ≠ "ACTIVE" then .error "SCHOOL_SUSPENDED" else .ok school

def ensureDefaultSubdomainForSchool (schoolId : String) (s : DB) :
    Except String (DomainConfig × DB) :=
  match mget s.schools schoolId with
  | none => .error "SCHOOL_NOT_FOUND"
  | some school =>
      let host := normalizeHost (school.slug ++ "." ++ "platform.local")
      if (match mget s.bySubdomain host with
          | some existing => decide (existing ≠ schoolId)
          | none => false) then .error "SUBDOMAIN_COLLISION"
      else
        let s1 := { s with bySubdomain := mset s.bySubdomain host schoolId }
        match s1.domains.find?
            (fun kv => decide (kv.2.type = "subdomain" ∧ kv.2.schoolId = schoolId)) with
        | some kv => .ok (kv.2, s1)
        | none =>
            let (did, s2) := generateId "dom" s1
            let cfg : DomainConfig :=
              ⟨did, schoolId, "subdomain", host, true, none, s2.now, some s2.now⟩
            let s3 := { s2 with domains := mset s2.domains did cfg }
            let (_, s4) :=
              auditLog (some schoolId) "DOMAIN_SUBDOMAIN_CREATED" [("domain", host)] s3
            .ok (cfg, s4)

def createSchool (name slug : String) (s : DB) : Except String (School × DB) :=
  let n := jsTrim name
  let sl := jsToLower (jsTrim slug)
  if n = "" then .error "SCHOOL_NAME_REQUIRED"
  else if sl = "" then .error "SCHOOL_SLUG_REQUIRED"
  else if ¬ jsAll (fun c => c.isLower || c.isDigit || c = '-') sl then
    .error "SCHOOL_SLUG_INVALID"
  else if s.schools.any (fun kv => decide (kv.2.slug = sl)) then
    .error "SCHOOL_SLUG_ALREADY_EXISTS"
  else
    let (sid, s1) := generateId "sch" s
    let school : School := ⟨sid, n, sl, "ACTIVE", s1.now, s1.now⟩
    let s2 := { s1 with schools := mset s1.schools sid school }
    match ensureDefaultSubdomainForSchool sid s2 with
    | .error e => .error e
    | .ok (_, s3) =>
        let brand : Branding := ⟨sid, n, "#111111", "#ffffff", none, none, s3.now⟩
        let s4 :=
          if mhas s3.branding sid then s3
          else { s3 with branding := mset s3.branding sid brand }
        let locl : Localization := ⟨sid, "pt-BR", "BRL", "America/Sao_Paulo", s4.now⟩
        let s5 :=
          if mhas s4.localization sid then s4
          else { s4 with localization := mset s4.localization sid locl }
        let s6 :=
          if mhas s5.gateway sid then s5
          else
            let (tok, sa) := randomToken s5
            { sa with gateway := mset sa.gateway sid ⟨sid, "DEMO", "demo", tok, sa.now⟩ }
        let s7 :=
          if mhas s6.coursesBySchool sid then s6
          else { s6 with coursesBySchool := mset s6.coursesBySchool sid [] }
        let s8 :=
          if mhas s7.ordersBySchool sid then s7
          else { s7 with ordersBySchool := mset s7.ordersBySchool sid [] }
        let (_, s9) :=
          auditLog (some sid) "SCHOOL_CREATED" [("name", n), ("slug", sl)] s8
        .ok (school, s9)

def setSchoolStatus (schoolId status : String) (s : DB) :
    Except String (School × DB) :=
  match mget s.schools schoolId with
  | none => .error "SCHOOL_NOT_FOUND"
  | some school =>
      if status ≠ "ACTIVE" ∧ status ≠ "SUSPENDED" then .error "SCHOOL_STATUS_INVALID"
      else
        let school1 := { school with status := status, updatedAt := s.now }
        let s1 := { s with schools := mset s.schools schoolId school1 }
        let (_, s2) :=
          auditLog (some schoolId) "SCHOOL_STATUS_CHANGED" [("status", status)] s1
        .ok (school1, s2)

/-! ### White-label (domains) -/

def requestCustomDomain (schoolId domain : String) (s : DB) :
    Except String (DomainConfig × DB) :=
  match assertSchoolActive schoolId s with
  | .error e => .error e
  | .ok _ =>
      let d := normalizeDomain domain
      if ¬ isValidDomainLike d then .error "CUSTOM_DOMAIN_INVALID"
      else if jsEndsWith d ".platform.local" then .error "CUSTOM_DOMAIN_NOT_ALLOWED"
      else if (match mget s.byCustomDomain d with
               | some takenId =>
                   match mget s.domains takenId with
                   | some taken => decide (taken.schoolId ≠ schoolId)
                   | none => false
               | none => false) then .error "CUSTOM_DOMAIN_ALREADY_IN_USE"
      else
        let (tok, s1) := randomToken s
        match s1.domains.find?
            (fun kv => decide (kv.2.type = "custom" ∧ kv.2.schoolId = schoolId ∧
                               kv.2.domain = d)) with
        | some kv =>
            let upd := { kv.2 with verified := false, verificationToken := some tok,
                                   verifiedAt := none }
            let s2 := { s1 with domains := mset s1.domains kv.1 upd,
                                byCustomDomain := mset s1.byCustomDomain d kv.2.id }
            let (_, s3) :=
              auditLog (some schoolId) "DOMAIN_CUSTOM_REREQUESTED" [("domain", d)] s2
            .ok (upd, s3)
        | none =>
            let (did, s2) := generateId "dom" s1
            let cfg : DomainConfig :=
              ⟨did, schoolId, "custom", d, false, some tok, s2.now, none⟩
            let s3 := { s2 with domains := mset s2.domains did cfg,
                                byCustomDomain := mset s2.byCustomDomain d did }
            let (_, s4) :=
              auditLog (some schoolId) "DOMAIN_CUSTOM_REQUESTED" [("domain", d)] s3
            .ok (cfg, s4)

def verifyCustomDomain (schoolId domain token : String) (s : DB) :
    Except String (DomainConfig × DB) :=
  match assertSchoolActive schoolId s with
  | .error e => .error e
  | .ok _ =>
      let d := normalizeDomain domain
      match mget s.byCustomDomain d with
      | none => .error "CUSTOM_DOMAIN_NOT_REQUESTED"
      | some domainId =>
          match mget s.domains domainId with
          | none => .error "CUSTOM_DOMAIN_NOT_REQUESTED"
          | some cfg =>
              if cfg.type ≠ "custom" then .error "CUSTOM_DOMAIN_INVALID_STATE"
              else if cfg.schoolId ≠ schoolId then
                .error "CUSTOM_DOMAIN_OWNERSHIP_MISMATCH"
              else
                match cfg.verificationToken with
                | none => .error "CUSTOM_DOMAIN_MISSING_TOKEN"
                | some vt =>
                    if jsTrim token ≠ vt then .error "CUSTOM_DOMAIN_TOKEN_INVALID"
                    else
                      let cfg1 := { cfg with verified := true, verifiedAt := some s.now }
                      let s1 := { s with domains := mset s.domains domainId cfg1 }
                      let (_, s2) :=
                        auditLog (some schoolId) "DOMAIN_CUSTOM_VERIFIED"
                          [("domain", d)] s1
                      .ok (cfg1, s2)

def resolveSchoolByHost (host : String) (s : DB) : Option School :=
  let h := normalizeHost host
  if h = "" then none
  else
    match mget s.byCustomDomain h with
    | some customId =>
        match mget s.domains customId with
        | some cfg =>
            if cfg.type = "custom" ∧ cfg.verified = true then mget s.schools cfg.schoolId
            else
              match mget s.bySubdomain h with
              | some schoolId => mget s.schools schoolId
              | none => none
        | none =>
            match mget s.bySubdomain h with
            | some schoolId => mget s.schools schoolId
            | none => none
    | none =>
        match mget s.bySubdomain h with
        | some schoolId => mget s.schools schoolId
        | none => none

/-! ### Pricing -/

def normalizePromo (promo : PromoSpec) (basePrice : ℚ) : Except String Promo :=
  let ty := jsToUpper (jsTrim promo.type)
  if ty ≠ "PERCENT" ∧ ty ≠ "FIXED" then .error "PROMO_TYPE_INVALID"
  else if promo.value ≤ 0 then .error "PROMO_VALUE_INVALID"
  else
    match promo.untilIso with
    | none => .error "PROMO_UNTIL_REQUIRED"
    | some u =>
        if ty = "PERCENT" ∧ 100 ≤ promo.value then .error "PROMO_PERCENT_INVALID"
        else if ty = "FIXED" ∧ basePrice ≤ promo.value then .error "PROMO_FIXED_INVALID"
        else .ok ⟨ty, round2 promo.value, u⟩

def normalizePricing (price : ℚ) (currency : String) (promo : Option PromoSpec) :
    Except String Pricing :=
  if price ≤ 0 then .error "COURSE_PRICE_INVALID"
  else
    let cur := jsToUpper (jsTrim currency)
    if cur = "" ∨ jsLength cur ≠ 3 then .error "COURSE_CURRENCY_INVALID"
    else
      match promo with
      | none => .ok ⟨round2 price, cur, none⟩
      | some pr =>
          match normalizePromo pr (round2 price) with
          | .error e => .error e
          | .ok p => .ok ⟨round2 price, cur, some p⟩

def getEffectivePrice (pricing : Pricing) (now : Int) : ℚ :=
  match pricing.promo with
  | none => pricing.price
  | some promo =>
      match promo.untilIso with
      | none => pricing.price
      | some u =>
          if u < now then pricing.price
          else if promo.type = "PERCENT" then
            round2 (qMul pricing.price (qSub 1 (qDivNat promo.value 100)))
          else if promo.type = "FIXED" then round2 (qSub pricing.price promo.value)
          else pricing.price

/-! ### Courses (pipeline mock + import) -/

def addCourseToIndex (course : Course) (s : DB) : DB :=
  let cur := (mget s.coursesBySchool course.schoolId).getD []
  let cur1 := if cur.contains course.id then cur else cur ++ [course.id]
  { s with coursesBySchool := mset s.coursesBySchool course.schoolId cur1 }

/-- Shared body of createCourseAI / createCourseImport: currency
defaulting from localization, title check, pricing normalization. -/
def createCourseCommon (ctype : String) (schoolId title description : String)
    (price : ℚ) (currency : Option String) (promo : Option PromoSpec) (s : DB) :
    Except String (Course × DB) :=
  match assertSchoolActive schoolId s with
  | .error e => .error e
  | .ok _ =>
      let t := jsTrim title
      if t = "" then .error "COURSE_TITLE_REQUIRED"
      else
        let dflt := match mget s.localization schoolId with
                    | some l => l.defaultCurrency
                    | none => "BRL"
        let cur := (match currency with
                    | some c => if c = "" then dflt else c
                    | none => dflt)
        match normalizePricing price cur promo with
        | .error e => .error e
        | .ok pricing =>
            let (cid, s1) := generateId "crs" s
            let course : Course :=
              ⟨cid, schoolId, ctype, t, jsTrim description, [], none, pricing,
               none, none, none, "DRAFT", s1.now, s1.now, none⟩
            let s2 := { s1 with courses := mset s1.courses cid course }
            let s3 := addCourseToIndex course s2
            let (_, s4) :=
              auditLog (some schoolId) "COURSE_CREATED"
                [("courseId", cid), ("type", ctype)] s3
            .ok (course, s4)

def createCourseAI (schoolId title description : String) (price : ℚ)
    (currency : Option String) (promo : Option PromoSpec) (s : DB) :
    Except String (Course × DB) :=
  createCourseCommon "AI" schoolId title description price currency promo s

def createCourseImport (schoolId title description : String) (price : ℚ)
    (currency : Option String) (promo : Option PromoSpec) (s : DB) :
    Except String (Course × DB) :=
  createCourseCommon "IMPORT" schoolId title description price currency promo s

def normalizeAiInputs (inputs : AiInputs) : Except String AiInputs :=
  let theme := jsTrim inputs.theme
  let audience := jsTrim inputs.audience
  let level := jsTrim inputs.level
  let language := jsTrim inputs.language
  if theme = "" then .error "AI_INPUT_THEME_REQUIRED"
  else if audience = "" then .error "AI_INPUT_AUDIENCE_REQUIRED"
  else if level = "" then .error "AI_INPUT_LEVEL_REQUIRED"
  else if inputs.hours < 8 ∨ 40 < inputs.hours then .error "AI_INPUT_HOURS_INVALID"
  else if language = "" then .error "AI_INPUT_LANGUAGE_REQUIRED"
  else .ok ⟨theme, audience, level, inputs.hours, language⟩

def mockModuleFromInputs (inp : AiInputs) (mTitle : String) : CourseModule :=
  { title := mTitle ++ " — " ++ inp.theme,
    objectives :=
      ["Compreender os pontos centrais de " ++ jsToLower mTitle ++ ".",
       "Aplicar " ++ jsToLower mTitle ++ " em cenários típicos.",
       "Consolidar com exercício orientado."],
    lessons :=
      [⟨mTitle ++ ": conceitos-chave", none⟩,
       ⟨mTitle ++ ": prática guiada", none⟩,
       ⟨mTitle ++ ": exercício e revisão", none⟩] }

def mockStructureFromInputs (inp : AiInputs) : List CourseModule :=
  [mockModuleFromInputs inp "Fundamentos",
   mockModuleFromInputs inp "Aplicação",
   mockModuleFromInputs inp "Projeto"]

def aiGenerateStructure (schoolId courseId : String) (inputs : AiInputs) (s : DB) :
    Except String (Course × DB) :=
  match assertSchoolActive schoolId s with
  | .error e => .error e
  | .ok _ =>
      match mget s.courses courseId with
      | none => .error "COURSE_NOT_FOUND"
      | some course =>
          if course.schoolId ≠ schoolId then .error "COURSE_ACCESS_DENIED"
          else if course.type ≠ "AI" then .error "COURSE_NOT_AI"
          else if course.state ≠ "DRAFT" then .error "COURSE_INVALID_STATE"
          else
            match normalizeAiInputs inputs with
            | .error e => .error e
            | .ok normalized =>
                let course1 :=
                  { course with aiInputs := some normalized,
                                structure_ := some ⟨mockStructureFromInputs normalized⟩,
                                state := "DRAFTING_STRUCTURE", updatedAt := s.now }
                let s1 := { s with courses := mset s.courses courseId course1 }
                let (_, s2) :=
                  auditLog (some schoolId) "COURSE_STRUCTURE_GENERATED"
                    [("courseId", courseId)] s1
                .ok (course1, s2)

def validateLessonTitles : List Lesson → Except String Unit
  | [] => .ok ()
  | l :: rest =>
      if jsTrim l.title = "" then .error "COURSE_STRUCTURE_LESSON_TITLE_REQUIRED"
      else validateLessonTitles rest

def validateEditModules : List CourseModule → Except String Unit
  | [] => .ok ()
  | m :: rest =>
      if jsTrim m.title = "" then .error "COURSE_STRUCTURE_MODULE_TITLE_REQUIRED"
      else if m.lessons = [] then .error "COURSE_STRUCTURE_LESSONS_REQUIRED"
      else
        match validateLessonTitles m.lessons with
        | .error e => .error e
        | .ok _ => validateEditModules rest

def editCourseStructure (schoolId courseId : String) (structure_ : CourseStructure)
    (s : DB) : Except String (Course × DB) :=
  match assertSchoolActive schoolId s with
  | .error e => .error e
  | .ok _ =>
      match mget s.courses courseId with
      | none => .error "COURSE_NOT_FOUND"
      | some course =>
          if course.schoolId ≠ schoolId then .error "COURSE_ACCESS_DENIED"
          else if course.state ≠ "DRAFTING_STRUCTURE" then
            .error "COURSE_STRUCTURE_NOT_EDITABLE"
          else if structure_.modules = [] then .error "COURSE_STRUCTURE_INVALID"
          else
            match validateEditModules structure_.modules with
            | .error e => .error e
            | .ok _ =>
                let course1 :=
                  { course with structure_ := some structure_, updatedAt := s.now }
                let s1 := { s with courses := mset s.courses courseId course1 }
                let (_, s2) :=
                  auditLog (some schoolId) "COURSE_STRUCTURE_EDITED"
                    [("courseId", courseId)] s1
                .ok (course1, s2)

def approveCourseStructure (schoolId courseId : String) (s : DB) :
    Except String (Course × DB) :=
  match assertSchoolActive schoolId s with
  | .error e => .error e
  | .ok _ =>
      match mget s.courses courseId with
      | none => .error "COURSE_NOT_FOUND"
      | some course =>
          if course.schoolId ≠ schoolId then .error "COURSE_ACCESS_DENIED"
          else if course.state ≠ "DRAFTING_STRUCTURE" then .error "COURSE_INVALID_STATE"
          else if (match course.structure_ with
                   | none => true
                   | some st => decide (st.modules = [])) then
            .error "COURSE_STRUCTURE_MISSING"
          else
            let course1 := { course with state := "STRUCTURE_APPROVED", updatedAt := s.now }
            let s1 := { s with courses := mset s.courses courseId course1 }
            let (_, s2) :=
              auditLog (some schoolId) "COURSE_STRUCTURE_APPROVED"
                [("courseId", courseId)] s1
            .ok (course1, s2)

def mockFullLesson (l : Lesson) : FullLesson :=
  { title := l.title,
    body := "Texto (mock) da aula \"" ++ l.title ++
      "\". Conteúdo estruturado para leitura e estudo.",
    videoScript := "Roteiro (mock) para \"" ++ l.title ++
      "\": abertura, desenvolvimento, exemplo prático e fechamento.",
    slides :=
      ["Slide 1: Introdução a \"" ++ l.title ++ "\"",
       "Slide 2: Conceitos centrais",
       "Slide 3: Exemplo prático",
       "Slide 4: Resumo e próximos passos"] }

def mockFullModule (mi : Nat) (m : CourseModule) : FullModule :=
  { title := m.title,
    objectives := m.objectives,
    lessons := m.lessons.map mockFullLesson,
    quiz :=
      ⟨"Quiz do módulo " ++ toString (mi + 1),
       [⟨"Pergunta 1 sobre " ++ m.title, ["A", "B", "C", "D"], "A"⟩,
        ⟨"Pergunta 2 sobre " ++ m.title, ["A", "B", "C", "D"], "B"⟩]⟩ }

/-- mockFullContent reads course.structure.modules; the state machine
guarantees the structure is present when it is called (the source
would crash on a missing structure, which no claim exercises). -/
def mockFullContent (course : Course) (now : Int) : FullContent :=
  let mods := (course.structure_.map CourseStructure.modules).getD []
  let modules := mods.enum.map (fun p => mockFullModule p.1 p.2)
  { generatedAt := now,
    modules := modules,
    artifacts :=
      ⟨⟨"JSON_PLACEHOLDER", "Ebook (mock) — " ++ course.title,
        modules.map FullModule.title⟩,
       ⟨"JSON_PLACEHOLDER",
        ["Checklist (mock)", "Resumo (mock)", "Guia rápido (mock)"]⟩⟩ }

/-- aiGenerateFullCourse.  The source passes through the transient
GENERATING_FULL state inside the same synchronous call; only the final
DRAFT_READY state is observable and modelled. -/
def aiGenerateFullCourse (schoolId courseId : String) (s : DB) :
    Except String (Course × DB) :=
  match assertSchoolActive schoolId s with
  | .error e => .error e
  | .ok _ =>
      match mget s.courses courseId with
      | none => .error "COURSE_NOT_FOUND"
      | some course =>
          if course.schoolId ≠ schoolId then .error "COURSE_ACCESS_DENIED"
          else if course.type ≠ "AI" then .error "COURSE_NOT_AI"
          else if course.state ≠ "STRUCTURE_APPROVED" then .error "COURSE_INVALID_STATE"
          else
            let course1 :=
              { course with fullContent := some (mockFullContent course s.now),
                            state := "DRAFT_READY", updatedAt := s.now }
            let s1 := { s with courses := mset s.courses courseId course1 }
            let (_, s2) :=
              auditLog (some schoolId) "COURSE_FULL_GENERATED"
                [("courseId", courseId)] s1
            .ok (course1, s2)

def validateImportLessons : List Lesson → Except String Unit
  | [] => .ok ()
  | l :: rest =>
      if jsTrim l.title = "" then .error "COURSE_STRUCTURE_LESSON_TITLE_REQUIRED"
      else if (jsTrim (l.externalUrl.getD "") = "") then .error "COURSE_IMPORT_URL_REQUIRED"
      else validateImportLessons rest

def validateImportModules : List CourseModule → Except String Unit
  | [] => .ok ()
  | m :: rest =>
      if jsTrim m.title = "" then .error "COURSE_STRUCTURE_MODULE_TITLE_REQUIRED"
      else if m.lessons = [] then .error "COURSE_STRUCTURE_LESSONS_REQUIRED"
      else
        match validateImportLessons m.lessons with
        | .error e => .error e
        | .ok _ => validateImportModules rest

def validateImportStructure (structure_ : CourseStructure) : Except String Unit :=
  if structure_.modules = [] then .error "COURSE_STRUCTURE_INVALID"
  else validateImportModules structure_.modules

def setImportStructure (schoolId courseId : String) (structure_ : CourseStructure)
    (s : DB) : Except String (Course × DB) :=
  match assertSchoolActive schoolId s with
  | .error e => .error e
  | .ok _ =>
      match mget s.courses courseId with
      | none => .error "COURSE_NOT_FOUND"
      | some course =>
          if course.schoolId ≠ schoolId then .error "COURSE_ACCESS_DENIED"
          else if course.type ≠ "IMPORT" then .error "COURSE_NOT_IMPORT"
          else if course.state ≠ "DRAFT" then .error "COURSE_INVALID_STATE"
          else
            match validateImportStructure structure_ with
            | .error e => .error e
            | .ok _ =>
                let course1 :=
                  { course with structure_ := some structure_,
                                state := "DRAFT_READY", updatedAt := s.now }
                let s1 := { s with courses := mset s.courses courseId course1 }
                let (_, s2) :=
                  auditLog (some schoolId) "COURSE_IMPORT_STRUCTURE_SET"
                    [("courseId", courseId)] s1
                .ok (course1, s2)

def publishCourse (schoolId courseId : String) (s : DB) :
    Except String (Course × DB) :=
  match assertSchoolActive schoolId s with
  | .error e => .error e
  | .ok _ =>
      match mget s.courses courseId with
      | none => .error "COURSE_NOT_FOUND"
      | some course =>
          if course.schoolId ≠ schoolId then .error "COURSE_ACCESS_DENIED"
          else if course.state ≠ "DRAFT_READY" then .error "COURSE_NOT_READY_TO_PUBLISH"
          else
            let course1 :=
              { course with state := "PUBLISHED", publishedAt := some s.now,
                            updatedAt := s.now }
            let s1 := { s with courses := mset s.courses courseId course1 }
            let (_, s2) :=
              auditLog (some schoolId) "COURSE_PUBLISHED" [("courseId", courseId)] s1
            .ok (course1, s2)

/-! ### Orders + Payments + Webhooks + Enrollment -/

def addToSetIndex (m : List (String × List String)) (key v : String) :
    List (String × List String) :=
  let cur := (mget m key).getD []
  mset m key (if cur.contains v then cur else cur ++ [v])

def createOrder (schoolId courseId buyerEmail : String) (s : DB) :
    Except String (Order × DB) :=
  match assertSchoolActive schoolId s with
  | .error e => .error e
  | .ok _ =>
      match mget s.courses courseId with
      | none => .error "COURSE_NOT_FOUND"
      | some course =>
          if course.schoolId ≠ schoolId then .error "COURSE_ACCESS_DENIED"
          else if course.state ≠ "PUBLISHED" then .error "COURSE_NOT_FOR_SALE"
          else
            let email := jsToLower (jsTrim buyerEmail)
            if ¬ jsContains email '@' then .error "BUYER_EMAIL_INVALID"
            else
              let price := getEffectivePrice course.pricing s.now
              let (oid, s1) := generateId "ord" s
              let order : Order :=
                ⟨oid, schoolId, courseId, email, price, course.pricing.currency,
                 "PENDING", s1.now, s1.now, none⟩
              let s2 := { s1 with orders := mset s1.orders oid order }
              let s3 :=
                { s2 with
                  ordersBySchool := addToSetIndex s2.ordersBySchool schoolId oid,
                  ordersByBuyer :=
                    addToSetIndex s2.ordersByBuyer (schoolId ++ ":" ++ email) oid,
                  ordersByCourse :=
                    addToSetIndex s2.ordersByCourse (schoolId ++ ":" ++ courseId) oid }
              let (_, s4) :=
                auditLog (some schoolId) "ORDER_CREATED"
                  [("orderId", oid), ("courseId", courseId), ("buyerEmail", email)] s3
              .ok (order, s4)

/-- startDemoCheckout.  The checkout URL elides encodeURIComponent
(generated ids and outcomes are URL-safe). -/
def startDemoCheckout (schoolId orderId outcome : String) (s : DB) :
    Except String (CheckoutResult × DB) :=
  match assertSchoolActive schoolId s with
  | .error e => .error e
  | .ok _ =>
      match mget s.orders orderId with
      | none => .error "ORDER_NOT_FOUND"
      | some order =>
          if order.schoolId ≠ schoolId then .error "ORDER_ACCESS_DENIED"
          else if order.status ≠ "PENDING" then .error "ORDER_NOT_PENDING"
          else
            match mget s.gateway schoolId with
            | none => .error "GATEWAY_NOT_CONFIGURED"
            | some g =>
                if g.provider ≠ "DEMO" then .error "GATEWAY_NOT_CONFIGURED"
                else
                  let oc := jsToUpper (jsTrim outcome)
                  if oc ≠ "APPROVED" ∧ oc ≠ "DECLINED" then
                    .error "CHECKOUT_OUTCOME_INVALID"
                  else
                    let (pid, s1) := generateId "pay" s
                    let payment : Payment :=
                      ⟨pid, schoolId, orderId, "DEMO", "INITIATED", s1.now, s1.now⟩
                    let s2 := { s1 with payments := mset s1.payments pid payment }
                    let (eid, s3) := generateId "whk" s2
                    let payload : WebhookPayload :=
                      ⟨"DEMO", eid, schoolId, orderId, pid, oc, s3.now⟩
                    let signature :=
                      hmacSha256 g.webhookSecret (stableStringifyPayload payload)
                    let checkoutUrl :=
                      "https://checkout.demo.local/checkout?orderId=" ++ orderId ++
                      "&result=" ++ oc
                    let (_, s4) :=
                      auditLog (some schoolId) "CHECKOUT_STARTED"
                        [("orderId", orderId), ("outcome", oc),
                         ("paymentId", pid), ("eventId", eid)] s3
                    .ok (⟨checkoutUrl, ⟨payload, signature⟩⟩, s4)

def ensureEnrollment (schoolId buyerEmail courseId orderId : String) (s : DB) :
    Option Enrollment × DB :=
  let key := schoolId ++ ":" ++ buyerEmail ++ ":" ++ courseId
  match mget s.enrollBySchoolBuyerCourse key with
  | some existingId => (mget s.enrollments existingId, s)
  | none =>
      let (eid, s1) := generateId "enr" s
      let enrollment : Enrollment := ⟨eid, schoolId, buyerEmail, courseId, orderId, s1.now⟩
      let s2 :=
        { s1 with enrollments := mset s1.enrollments eid enrollment,
                  enrollBySchoolBuyerCourse :=
                    mset s1.enrollBySchoolBuyerCourse key eid }
      let (_, s3) :=
        auditLog (some schoolId) "ENROLLMENT_CREATED"
          [("enrollmentId", eid), ("courseId", courseId), ("buyerEmail", buyerEmail)] s2
      (some enrollment, s3)

def canAccessCourse (schoolId buyerEmail courseId : String) (s : DB) : Bool :=
  mhas s.enrollBySchoolBuyerCourse
    (schoolId ++ ":" ++ jsToLower (jsTrim buyerEmail) ++ ":" ++ courseId)

/-- Effect application of receiveWebhook (the "aplica efeito (1 vez)"
block): mutate the order and payment, and on APPROVED ensure the
enrollment; returns the mutated order and the updated store. -/
def applyWebhookResult (orderId paymentId eventId : String) (schoolId : String)
    (result : String) (order : Order) (payment : Payment) (s : DB) : Order × DB :=
  if result = "APPROVED" then
    let order1 := { order with status := "PAID", paidAt := some s.now,
                               updatedAt := s.now }
    let payment1 := { payment with status := "SUCCEEDED", updatedAt := s.now }
    let sa := { s with orders := mset s.orders orderId order1,
                       payments := mset s.payments paymentId payment1 }
    let (_, sb) := ensureEnrollment schoolId order.buyerEmail order.courseId order.id sa
    let (_, sc) :=
      auditLog (some schoolId) "PAYMENT_SUCCEEDED"
        [("orderId", orderId), ("paymentId", paymentId), ("eventId", eventId)] sb
    (order1, sc)
  else
    let order1 := { order with status := "FAILED", updatedAt := s.now }
    let payment1 := { payment with status := "FAILED", updatedAt := s.now }
    let sa := { s with orders := mset s.orders orderId order1,
                       payments := mset s.payments paymentId payment1 }
    let (_, sc) :=
      auditLog (some schoolId) "PAYMENT_FAILED"
        [("orderId", orderId), ("paymentId", paymentId), ("eventId", eventId)] sa
    (order1, sc)

/-- Recording step of receiveWebhook: build the frozen snapshot,
persist the WebhookEvent under its eventId and emit the audit entry. -/
def recordWebhookEvent (prov eventId schoolId orderId paymentId result : String)
    (payload : WebhookPayload) (signature : String) (applied : Order × DB) :
    Except String (Snapshot × DB) :=
  let snapshot : Snapshot :=
    ⟨true, prov, eventId, schoolId, orderId, paymentId, applied.1.status⟩
  let evt : WebhookEvent :=
    ⟨eventId, prov, schoolId, orderId, paymentId, applied.2.now, payload,
     signature, snapshot⟩
  let whks := mset applied.2.webhookEvents eventId evt
  let s5 := { applied.2 with webhookEvents := whks }
  let (_, s6) :=
    auditLog (some schoolId) "WEBHOOK_RECEIVED"
      [("eventId", eventId), ("orderId", orderId), ("result", result)] s5
  .ok (snapshot, s6)

/-- First-time path of receiveWebhook (after the provider, eventId and
idempotency checks): payload field validation, signature verification,
order/payment ownership checks, effect application and recording. -/
def receiveWebhookFresh (prov : String) (payload : WebhookPayload)
    (signature : String) (s : DB) : Except String (Snapshot × DB) :=
  let eventId := jsTrim payload.eventId
  let schoolId := jsTrim payload.schoolId
  let orderId := jsTrim payload.orderId
  let paymentId := jsTrim payload.paymentId
  let result := jsToUpper (jsTrim payload.result)
  if schoolId = "" ∨ orderId = "" ∨ paymentId = "" then
    .error "WEBHOOK_PAYLOAD_INVALID"
  else if result ≠ "APPROVED" ∧ result ≠ "DECLINED" then
    .error "WEBHOOK_RESULT_INVALID"
  else
    match mget s.gateway schoolId with
    | none => .error "GATEWAY_NOT_CONFIGURED"
    | some g =>
        if jsTrim signature ≠
            hmacSha256 g.webhookSecret (stableStringifyPayload payload) then
          .error "WEBHOOK_SIGNATURE_INVALID"
        else
          match mget s.orders orderId with
          | none => .error "ORDER_NOT_FOUND"
          | some order =>
              if order.schoolId ≠ schoolId then .error "ORDER_ACCESS_DENIED"
              else
                match mget s.payments paymentId with
                | none => .error "PAYMENT_NOT_FOUND"
                | some payment =>
                    if payment.schoolId ≠ schoolId then .error "PAYMENT_ACCESS_DENIED"
                    else if payment.orderId ≠ orderId then
                      .error "PAYMENT_ORDER_MISMATCH"
                    else
                      recordWebhookEvent prov eventId schoolId orderId paymentId
                        result payload signature
                        (applyWebhookResult orderId paymentId eventId schoolId
                          result order payment s)

/-- Provider normalization at the top of receiveWebhook:
String(provider || payload.provider || "").trim().toUpperCase(). -/
def provOf (provider : String) (payload : WebhookPayload) : String :=
  jsToUpper (jsTrim (if provider = "" then payload.provider else provider))

def receiveWebhook (provider : String) (payload : WebhookPayload) (signature : String)
    (s : DB) : Except String (Snapshot × DB) :=
  let prov := provOf provider payload
  if prov ≠ "DEMO" then .error "WEBHOOK_PROVIDER_UNSUPPORTED"
  else
    let eventId := jsTrim payload.eventId
    if eventId = "" then .error "WEBHOOK_EVENT_ID_REQUIRED"
    else
      match mget s.webhookEvents eventId with
      | some existing => .ok (existing.resultSnapshot, s)
      | none => receiveWebhookFresh prov payload signature s

/-! ### Concrete demo scenario (for witnesses and counterexamples)

A school "alpha" with an imported, published course, one order and two
demo checkouts started while the order was still PENDING.  All steps
are run from the empty store db0. -/

def exDB {α : Type} (x : Except String (α × DB)) (d : DB) : DB :=
  match x with
  | .ok (_, s) => s
  | .error _ => d

def exV {α : Type} (x : Except String (α × DB)) (d : α) : α :=
  match x with
  | .ok (v, _) => v
  | .error _ => d

def demoStructure : CourseStructure :=
  ⟨[⟨"Módulo 1", [], [⟨"Aula 1", some "https://videos.example.com/a1"⟩]⟩]⟩

def dfltCourse : Course :=
  ⟨"", "", "", "", "", [], none, ⟨1, "BRL", none⟩, none, none, none, "", 0, 0, none⟩

def dfltOrder : Order := ⟨"", "", "", "", 1, "", "", 0, 0, none⟩

def dfltCheckout : CheckoutResult := ⟨"", ⟨⟨"", "", "", "", "", "", 0⟩, ""⟩⟩

def st1 : DB := exDB (createSchool "Escola Alpha" "alpha" db0) db0

def demoPromo : PromoSpec := ⟨"PERCENT", 20, some (some 100)⟩

def st2 : DB :=
  exDB (createCourseImport "sch_0" "Node Essencial" "Base sólida" (mkRat 1999 10)
    none none st1) st1

def st3 : DB := exDB (setImportStructure "sch_0" "crs_5" demoStructure st2) st2

def st4 : DB := exDB (publishCourse "sch_0" "crs_5" st3) st3

def st5 : DB := exDB (createOrder "sch_0" "crs_5" " A@b.com " st4) st4

def chk1 : CheckoutResult :=
  exV (startDemoCheckout "sch_0" "ord_9" "APPROVED" st5) dfltCheckout

def st6 : DB := exDB (startDemoCheckout "sch_0" "ord_9" "APPROVED" st5) st5

def chk2 : CheckoutResult :=
  exV (startDemoCheckout "sch_0" "ord_9" "DECLINED" st6) dfltCheckout

def st7 : DB := exDB (startDemoCheckout "sch_0" "ord_9" "DECLINED" st6) st6

def st8 : DB :=
  exDB (receiveWebhook "DEMO" chk1.webhook.payload chk1.webhook.signature st7) st7

def st9 : DB :=
  exDB (receiveWebhook "DEMO" chk2.webhook.payload chk2.webhook.signature st8) st8

def dfltEvt : WebhookEvent :=
  ⟨"", "", "", "", "", 0, ⟨"", "", "", "", "", "", 0⟩, "",
   ⟨false, "", "", "", "", "", ""⟩⟩

def exEvt (s : DB) (k : String) : WebhookEvent :=
  (mget s.webhookEvents k).getD dfltEvt

/-! ### Helper lemmas about receiveWebhook -/

/-- Replay path of receiveWebhook: a recorded eventId short-circuits to
the stored snapshot with no state change, for any provider string that
normalizes to DEMO. -/
theorem receiveWebhook_replay (provider : String) (payload : WebhookPayload)
    (sig : String) (s : DB) (evt : WebhookEvent)
    (hprov : provOf provider payload = "DEMO")
    (hne : jsTrim payload.eventId ≠ "")
    (h : mget s.webhookEvents (jsTrim payload.eventId) = some evt) :
    receiveWebhook provider payload sig s = .ok (evt.resultSnapshot, s) := by
  simp only [receiveWebhook, hprov, hne, h]
  simp

/-- recordWebhookEvent stores the event under its eventId with exactly
the returned snapshot. -/
theorem recordWebhookEvent_recorded (prov eventId schoolId orderId paymentId
    result : String) (payload : WebhookPayload) (sig : String)
    (applied : Order × DB) (snap : Snapshot) (s1 : DB)
    (h : recordWebhookEvent prov eventId schoolId orderId paymentId result
      payload sig applied = .ok (snap, s1)) :
    ∃ evt, mget s1.webhookEvents eventId = some evt ∧ evt.resultSnapshot = snap := by
  simp only [recordWebhookEvent, Except.ok.injEq, Prod.mk.injEq] at h
  obtain ⟨h1, h2⟩ := h
  subst h2
  refine ⟨⟨eventId, prov, schoolId, orderId, paymentId, applied.2.now, payload, sig,
    ⟨true, prov, eventId, schoolId, orderId, paymentId, applied.1.status⟩⟩, ?_, h1⟩
  simp [auditLog, generateId, mget_mset_self]

/-- A successful first-time delivery records the event under the
trimmed eventId with exactly the returned snapshot. -/
theorem receiveWebhookFresh_ok_recorded (prov : String) (payload : WebhookPayload)
    (sig : String) (s : DB) (snap : Snapshot) (s1 : DB)
    (h : receiveWebhookFresh prov payload sig s = .ok (snap, s1)) :
    ∃ evt, mget s1.webhookEvents (jsTrim payload.eventId) = some evt ∧
      evt.resultSnapshot = snap := by
  simp only [receiveWebhookFresh] at h
  split at h
  · exact absurd h (by simp)
  · split at h
    · exact absurd h (by simp)
    · split at h
      · exact absurd h (by simp)
      · split at h
        · exact absurd h (by simp)
        · split at h
          · exact absurd h (by simp)
          · split at h
            · exact absurd h (by simp)
            · split at h
              · exact absurd h (by simp)
              · split at h
                · exact absurd h (by simp)
                · split at h
                  · exact absurd h (by simp)
                  · exact recordWebhookEvent_recorded _ _ _ _ _ _ _ _ _ _ _ h

/-- A successful receiveWebhook leaves the event recorded in the
resulting state, keyed by the trimmed eventId, carrying exactly the
returned snapshot. -/
theorem receiveWebhook_ok_recorded (provider : String) (payload : WebhookPayload)
    (sig : String) (s : DB) (snap : Snapshot) (s1 : DB)
    (h : receiveWebhook provider payload sig s = .ok (snap, s1)) :
    provOf provider payload = "DEMO" ∧
    jsTrim payload.eventId ≠ "" ∧
    ∃ evt, mget s1.webhookEvents (jsTrim payload.eventId) = some evt ∧
      evt.resultSnapshot = snap := by
  simp only [receiveWebhook] at h
  split at h
  · exact absurd h (by simp)
  · next hprov =>
    split at h
    · exact absurd h (by simp)
    · next hne =>
      refine ⟨by simpa using hprov, hne, ?_⟩
      split at h
      · next evt hevt =>
        simp only [Except.ok.injEq, Prod.mk.injEq] at h
        obtain ⟨h1, h2⟩ := h
        exact h2 ▸ ⟨evt, hevt, h1⟩
      · exact receiveWebhookFresh_ok_recorded _ _ _ _ _ _ h

/-- Delivering the same webhook twice: a successful first call makes
the second call with the same arguments return the same snapshot and
leave the state unchanged. -/
theorem receiveWebhook_twice (provider : String) (payload : WebhookPayload)
    (sig : String) (s : DB) (snap : Snapshot) (s1 : DB)
    (h : receiveWebhook provider payload sig s = .ok (snap, s1)) :
    receiveWebhook provider payload sig s1 = .ok (snap, s1) := by
  obtain ⟨hprov, hne, evt, hevt, hsnap⟩ :=
    receiveWebhook_ok_recorded provider payload sig s snap s1 h
  rw [receiveWebhook_replay provider payload sig s1 evt hprov hne hevt, hsnap]

/-! ### Further helper lemmas -/

/-- startDemoCheckout never touches the orders table: it only creates a
payment, generates the signed payload and logs. -/
theorem startDemoCheckout_orders_unchanged (schoolId orderId outcome : String)
    (s : DB) (r : CheckoutResult) (s1 : DB)
    (h : startDemoCheckout schoolId orderId outcome s = .ok (r, s1)) :
    s1.orders = s.orders := by
  simp only [startDemoCheckout] at h
  split at h
  · exact absurd h (by simp)
  · split at h
    · exact absurd h (by simp)
    · split at h
      · exact absurd h (by simp)
      · split at h
        · exact absurd h (by simp)
        · split at h
          · exact absurd h (by simp)
          · split at h
            · exact absurd h (by simp)
            · split at h
              · exact absurd h (by simp)
              · simp only [Except.ok.injEq, Prod.mk.injEq] at h
                obtain ⟨-, h2⟩ := h
                subst h2
                simp [auditLog, generateId]

/-- createOrder returns and stores a PENDING order. -/
theorem createOrder_ok_pending (schoolId courseId buyerEmail : String) (s : DB)
    (o : Order) (s1 : DB)
    (h : createOrder schoolId courseId buyerEmail s = .ok (o, s1)) :
    o.status = "PENDING" ∧ mget s1.orders o.id = some o := by
  simp only [createOrder] at h
  split at h
  · exact absurd h (by simp)
  · split at h
    · exact absurd h (by simp)
    · split at h
      · exact absurd h (by simp)
      · split at h
        · exact absurd h (by simp)
        · split at h
          · exact absurd h (by simp)
          · simp only [Except.ok.injEq, Prod.mk.injEq] at h
            obtain ⟨h1, h2⟩ := h
            subst h2
            refine ⟨by rw [← h1], ?_⟩
            rw [← h1]
            simp [auditLog, generateId, mget_mset_self]

/-! ### Claims -/

/-- C1: Webhook idempotency.  A delivery whose eventId is already
recorded returns the stored result snapshot unchanged with no state
mutation (no re-validation, no re-application, whatever the incoming
payload and signature are); consequently delivering the same
payload/signature twice yields identical snapshots, the second
delivery applying no effects. -/
theorem webhook_idempotency (payload : WebhookPayload) (sig : String) (s : DB)
    (evt : WebhookEvent)
    (hne : jsTrim payload.eventId ≠ "")
    (hrec : mget s.webhookEvents (jsTrim payload.eventId) = some evt) :
    receiveWebhook "DEMO" payload sig s = .ok (evt.resultSnapshot, s) ∧
    ∀ (provider : String) (p : WebhookPayload) (sg : String) (s' : DB)
      (snap : Snapshot) (s1 : DB),
      receiveWebhook provider p sg s' = .ok (snap, s1) →
      receiveWebhook provider p sg s1 = .ok (snap, s1) := by
  constructor
  · exact receiveWebhook_replay "DEMO" payload sig s evt rfl hne hrec
  · exact fun provider p sg s' snap s1 h =>
      receiveWebhook_twice provider p sg s' snap s1 h

theorem webhook_idempotency_witness :
    receiveWebhook "DEMO" chk1.webhook.payload chk1.webhook.signature st8 =
      .ok ((exEvt st8 "whk_12").resultSnapshot, st8) :=
  (webhook_idempotency chk1.webhook.payload chk1.webhook.signature st8
    (exEvt st8 "whk_12") (by decide) (by decide)).1

/-- C2 counterexample: an order that is already PAID is moved again to
FAILED by a receiveWebhook call carrying the fresh eventId of a second
startDemoCheckout that was issued while the order was still PENDING —
the status does not transition exactly once. -/
theorem order_status_double_transition :
    (mget st8.orders "ord_9").map Order.status = some "PAID" ∧
    receiveWebhook "DEMO" chk2.webhook.payload chk2.webhook.signature st8 =
      .ok (⟨true, "DEMO", "whk_15", "sch_0", "ord_9", "pay_14", "FAILED"⟩, st9) ∧
    (mget st9.orders "ord_9").map Order.status = some "FAILED" := by
  refine ⟨by decide, by decide, by decide⟩

/-- C2 (amended): every order is created PENDING; its status is changed
only by the webhook processor — startDemoCheckout leaves the orders
table untouched, and a receiveWebhook call whose eventId is already
recorded changes no state at all.  A fresh eventId from a second
checkout started while the order was PENDING can, however, move an
already PAID/FAILED status again. -/
theorem order_status_transitions (schoolId courseId buyerEmail : String) (s : DB) :
    (∀ o s1, createOrder schoolId courseId buyerEmail s = .ok (o, s1) →
      o.status = "PENDING" ∧ mget s1.orders o.id = some o) ∧
    (∀ orderId outcome r s1,
      startDemoCheckout schoolId orderId outcome s = .ok (r, s1) →
      s1.orders = s.orders) ∧
    (∀ (payload : WebhookPayload) (sig : String) (evt : WebhookEvent),
      jsTrim payload.eventId ≠ "" →
      mget s.webhookEvents (jsTrim payload.eventId) = some evt →
      receiveWebhook "DEMO" payload sig s = .ok (evt.resultSnapshot, s)) := by
  refine ⟨fun o s1 h => createOrder_ok_pending _ _ _ _ _ _ h,
          fun orderId outcome r s1 h =>
            startDemoCheckout_orders_unchanged _ _ _ _ _ _ h,
          fun payload sig evt hne hrec =>
            receiveWebhook_replay "DEMO" payload sig s evt rfl hne hrec⟩

theorem order_status_transitions_witness :
    (exV (createOrder "sch_0" "crs_5" " A@b.com " st4) dfltOrder).status =
      "PENDING" := by
  have h := (order_status_transitions "sch_0" "crs_5" " A@b.com " st4).1
  have hc : createOrder "sch_0" "crs_5" " A@b.com " st4 =
      .ok (exV (createOrder "sch_0" "crs_5" " A@b.com " st4) dfltOrder, st5) := by
    decide
  exact (h _ _ hc).1

/-- C4: effectivePrice returns the base price when there is no promo or
the promo has expired (now past untilIso), silently; an unexpired
PERCENT promo yields round2 of price times (1 - value/100); an
unexpired FIXED promo yields round2 of price minus value; and for the
concrete 199.90 BRL course with a 20 percent promo until T = 100 the
result is 159.92 before T and 199.90 after T. -/
theorem effectivePrice_spec (pricing : Pricing) (now : Int) :
    (pricing.promo = none → getEffectivePrice pricing now = pricing.price) ∧
    (∀ promo u, pricing.promo = some promo → promo.untilIso = some u → u < now →
      getEffectivePrice pricing now = pricing.price) ∧
    (∀ promo u, pricing.promo = some promo → promo.type = "PERCENT" →
      promo.untilIso = some u → now ≤ u →
      getEffectivePrice pricing now =
        round2 (pricing.price * (1 - promo.value / 100))) ∧
    (∀ promo u, pricing.promo = some promo → promo.type = "FIXED" →
      promo.untilIso = some u → now ≤ u →
      getEffectivePrice pricing now = round2 (pricing.price - promo.value)) ∧
    (∀ pr, normalizePricing (mkRat 1999 10) "BRL" (some ⟨"PERCENT", 20, some (some 100)⟩) =
      .ok pr → getEffectivePrice pr 50 = mkRat 15992 100 ∧
               getEffectivePrice pr 150 = mkRat 1999 10) := by
  refine ⟨?_, ?_, ?_, ?_, ?_⟩
  · intro h
    simp [getEffectivePrice, h]
  · intro promo u hp hu hlt
    simp [getEffectivePrice, hp, hu, hlt]
  · intro promo u hp ht hu hle
    simp [getEffectivePrice, hp, ht, hu, not_lt.mpr hle, qMul_eq, qSub_eq, qDivNat_eq]
  · intro promo u hp ht hu hle
    simp [getEffectivePrice, hp, ht, hu, not_lt.mpr hle, qMul_eq, qSub_eq, qDivNat_eq]
  · intro pr h
    have hv : normalizePricing (mkRat 1999 10) "BRL" (some ⟨"PERCENT", 20, some (some 100)⟩) =
        .ok (⟨mkRat 1999 10, "BRL", some ⟨"PERCENT", 20, some 100⟩⟩ : Pricing) := by decide
    rw [hv] at h
    injection h with h'
    subst h'
    exact ⟨by decide, by decide⟩

theorem effectivePrice_spec_witness :
    getEffectivePrice (⟨mkRat 1999 10, "BRL", some ⟨"PERCENT", 20, some 100⟩⟩ : Pricing)
      50 = mkRat 15992 100 := by
  have h :=
    (effectivePrice_spec
      (⟨mkRat 1999 10, "BRL", some ⟨"PERCENT", 20, some 100⟩⟩ : Pricing) 50).2.2.2.2
  exact (h _ (by decide)).1

/-- C5 exhibit: a pricing record accepted by normalizePricing (base
price 0.01 with a 60 percent PERCENT promo — value below 100, so the
validation passes) whose effective price before expiry rounds to
exactly 0, contradicting the guarantee that the accepted promo
constraints keep the effective price strictly positive. -/
theorem promo_zero_price_bug :
    normalizePricing (mkRat 1 100) "BRL" (some ⟨"PERCENT", 60, some (some 100)⟩) =
      .ok (⟨mkRat 1 100, "BRL", some ⟨"PERCENT", 60, some 100⟩⟩ : Pricing) ∧
    getEffectivePrice (⟨mkRat 1 100, "BRL", some ⟨"PERCENT", 60, some 100⟩⟩ : Pricing) 0 =
      0 := by
  refine ⟨by decide, by decide⟩

/-! ### Custom-domain scenario states -/

def dfltDomain : DomainConfig := ⟨"", "", "", "", false, none, 0, none⟩

def stCD : DB := exDB (requestCustomDomain "sch_0" "cursos.alpha.com.br" st1) st1

def stCV : DB :=
  exDB (verifyCustomDomain "sch_0" "cursos.alpha.com.br" "tok_5" stCD) stCD

def stCD2 : DB := exDB (requestCustomDomain "sch_0" "cursos.alpha.com.br" stCD) stCD

def stB : DB := exDB (createSchool "Escola Beta" "beta" stCD) stCD

def stS : DB := exDB (setSchoolStatus "sch_0" "SUSPENDED" st7) st7

theorem assertSchoolActive_ok (schoolId : String) (s : DB) (sch : School)
    (h1 : mget s.schools schoolId = some sch) (h2 : sch.status = "ACTIVE") :
    assertSchoolActive schoolId s = .ok sch := by
  simp [assertSchoolActive, h1, h2]

theorem mget_isSome_of_mem {α : Type} (l : List (String × α)) (k : String) (v : α)
    (h : (k, v) ∈ l) : ∃ w, mget l k = some w := by
  induction l with
  | nil => cases h
  | cons hd tl ih =>
      by_cases hh : hd.1 = k
      · exact ⟨hd.2, by simp [mget, hh]⟩
      · rcases List.mem_cons.mp h with heq | htl
        · exact absurd (congrArg Prod.fst heq.symm) hh
        · obtain ⟨w, hw⟩ := ih htl
          exact ⟨w, by simp [mget, hh, hw]⟩

/-- C7: host resolution precedence.  A verified custom domain bound to
the host resolves to its owning school regardless of any subdomain
binding; a host whose custom-domain binding is unverified and which
has no subdomain binding resolves to null; a host with no
custom-domain binding resolves through the subdomain index — so a
school holding both a verified custom domain and its default
subdomain resolves both hostnames to itself. -/
theorem host_resolution_precedence (host : String) (s : DB) :
    (∀ cid cfg sch, normalizeHost host ≠ "" →
      mget s.byCustomDomain (normalizeHost host) = some cid →
      mget s.domains cid = some cfg →
      cfg.type = "custom" → cfg.verified = true →
      mget s.schools cfg.schoolId = some sch →
      resolveSchoolByHost host s = some sch) ∧
    (∀ cid cfg, normalizeHost host ≠ "" →
      mget s.byCustomDomain (normalizeHost host) = some cid →
      mget s.domains cid = some cfg →
      cfg.verified = false →
      mget s.bySubdomain (normalizeHost host) = none →
      resolveSchoolByHost host s = none) ∧
    (∀ sid sch, normalizeHost host ≠ "" →
      mget s.byCustomDomain (normalizeHost host) = none →
      mget s.bySubdomain (normalizeHost host) = some sid →
      mget s.schools sid = some sch →
      resolveSchoolByHost host s = some sch) := by
  refine ⟨?_, ?_, ?_⟩
  · intro cid cfg sch hne h1 h2 h3 h4 h5
    simp [resolveSchoolByHost, hne, h1, h2, h3, h4, h5]
  · intro cid cfg hne h1 h2 h4 h5
    simp [resolveSchoolByHost, hne, h1, h2, h4, h5]
  · intro sid sch hne h1 h2 h3
    simp [resolveSchoolByHost, hne, h1, h2, h3]

theorem host_resolution_precedence_witness :
    resolveSchoolByHost "cursos.alpha.com.br" stCV =
      some ((mget stCV.schools "sch_0").getD ⟨"", "", "", "", 0, 0⟩) ∧
    resolveSchoolByHost "alpha.platform.local" stCV =
      some ((mget stCV.schools "sch_0").getD ⟨"", "", "", "", 0, 0⟩) := by
  constructor
  · exact (host_resolution_precedence "cursos.alpha.com.br" stCV).1 "dom_6"
      ((mget stCV.domains "dom_6").getD dfltDomain)
      ((mget stCV.schools "sch_0").getD ⟨"", "", "", "", 0, 0⟩)
      (by decide) (by decide) (by decide) (by decide) (by decide) (by decide)
  · exact (host_resolution_precedence "alpha.platform.local" stCV).2.2 "sch_0"
      ((mget stCV.schools "sch_0").getD ⟨"", "", "", "", 0, 0⟩)
      (by decide) (by decide) (by decide) (by decide)

/-- C6 counterexample: school beta requesting a domain that school
alpha has requested but never verified is rejected with
CUSTOM_DOMAIN_ALREADY_IN_USE — an unverified domain of another school
does trigger the rejection, contrary to the claim. -/
theorem custom_domain_unverified_blocks :
    (mget stB.domains "dom_6").map DomainConfig.verified = some false ∧
    (mget stB.domains "dom_6").map DomainConfig.schoolId = some "sch_0" ∧
    requestCustomDomain "sch_8" "cursos.alpha.com.br" stB =
      .error "CUSTOM_DOMAIN_ALREADY_IN_USE" := by
  refine ⟨by decide, by decide, by decide⟩

/-- The in-place reset performed by a re-request: unverified again,
fresh token, verifiedAt cleared. -/
def rerequested (existing : DomainConfig) (tok : String) : DomainConfig :=
  { existing with verified := false, verificationToken := some tok, verifiedAt := none }

/-- C6 (amended): under the preceding guards (school active, domain
valid and not under the platform base domain), requestCustomDomain
throws CUSTOM_DOMAIN_ALREADY_IN_USE exactly when the custom-domain
index maps the normalized domain to a DomainConfig of another school —
verified or not; and when no such foreign record exists, re-requesting
a domain the same school already holds updates that record in place
(unverified, fresh token, no new record). -/
theorem custom_domain_uniqueness (schoolId domain : String) (s : DB) (sch : School)
    (hs : mget s.schools schoolId = some sch) (ha : sch.status = "ACTIVE")
    (hv : isValidDomainLike (normalizeDomain domain) = true)
    (hb : jsEndsWith (normalizeDomain domain) ".platform.local" = false) :
    ((requestCustomDomain schoolId domain s = .error "CUSTOM_DOMAIN_ALREADY_IN_USE") ↔
      (∃ tid cfg, mget s.byCustomDomain (normalizeDomain domain) = some tid ∧
        mget s.domains tid = some cfg ∧ cfg.schoolId ≠ schoolId)) ∧
    (∀ k existing,
      (¬ ∃ tid cfg, mget s.byCustomDomain (normalizeDomain domain) = some tid ∧
        mget s.domains tid = some cfg ∧ cfg.schoolId ≠ schoolId) →
      s.domains.find? (fun kv => decide (kv.2.type = "custom" ∧
        kv.2.schoolId = schoolId ∧ kv.2.domain = normalizeDomain domain)) =
        some (k, existing) →
      ∃ s1, requestCustomDomain schoolId domain s =
          .ok (rerequested existing ("tok_" ++ toString s.nextId), s1) ∧
        mget s1.domains k =
          some (rerequested existing ("tok_" ++ toString s.nextId)) ∧
        s1.domains.length = s.domains.length) := by
  have hact := assertSchoolActive_ok schoolId s sch hs ha
  constructor
  · constructor
    · intro herr
      rcases hmg : mget s.byCustomDomain (normalizeDomain domain) with _ | tid
      · simp [requestCustomDomain, hact, hv, hb, hmg, randomToken] at herr
        split at herr <;> simp at herr
      · rcases hdg : mget s.domains tid with _ | cfg
        · simp [requestCustomDomain, hact, hv, hb, hmg, hdg, randomToken] at herr
          split at herr <;> simp at herr
        · by_cases hsch : cfg.schoolId = schoolId
          · simp [requestCustomDomain, hact, hv, hb, hmg, hdg, hsch, randomToken]
              at herr
            split at herr <;> simp at herr
          · exact ⟨tid, cfg, rfl, hdg, hsch⟩
    · rintro ⟨tid, cfg, h1, h2, h3⟩
      simp [requestCustomDomain, hact, hv, hb, h1, h2, h3]
  · intro k existing hno hfind
    have hmem : (k, existing) ∈ s.domains := List.mem_of_find?_eq_some hfind
    obtain ⟨w, hw⟩ := mget_isSome_of_mem s.domains k existing hmem
    have hkeep : ∀ tid cfg, mget s.byCustomDomain (normalizeDomain domain) = some tid →
        mget s.domains tid = some cfg → cfg.schoolId = schoolId := by
      intro tid cfg hmg hdg
      by_contra hne
      exact hno ⟨tid, cfg, hmg, hdg, hne⟩
    have hfind2 : List.find? (fun kv => decide (kv.2.type = "custom") &&
        (decide (kv.2.schoolId = schoolId) &&
         decide (kv.2.domain = normalizeDomain domain))) s.domains =
        some (k, existing) := by
      have hp : (fun (kv : String × DomainConfig) => decide (kv.2.type = "custom") &&
          (decide (kv.2.schoolId = schoolId) &&
           decide (kv.2.domain = normalizeDomain domain))) =
          (fun kv => decide (kv.2.type = "custom" ∧ kv.2.schoolId = schoolId ∧
            kv.2.domain = normalizeDomain domain)) := by
        funext kv
        simp [Bool.decide_and]
      rw [hp, hfind]
    have hred : requestCustomDomain schoolId domain s =
        .ok (rerequested existing ("tok_" ++ toString s.nextId),
          (auditLog (some schoolId) "DOMAIN_CUSTOM_REREQUESTED"
            [("domain", normalizeDomain domain)]
            { { s with nextId := s.nextId + 1 } with
              domains := mset { s with nextId := s.nextId + 1 }.domains k
                (rerequested existing ("tok_" ++ toString s.nextId)),
              byCustomDomain := mset { s with nextId := s.nextId + 1 }.byCustomDomain
                (normalizeDomain domain) existing.id }).2) := by
      rcases hmg : mget s.byCustomDomain (normalizeDomain domain) with _ | tid
      · simp [requestCustomDomain, hact, hv, hb, hmg, randomToken, hfind2,
          rerequested]
      · rcases hdg : mget s.domains tid with _ | cfg
        · simp [requestCustomDomain, hact, hv, hb, hmg, hdg, randomToken, hfind2,
            rerequested]
        · have := hkeep tid cfg hmg hdg
          simp [requestCustomDomain, hact, hv, hb, hmg, hdg, this, randomToken,
            hfind2, rerequested]
    refine ⟨_, hred, ?_, ?_⟩
    · simp [auditLog, generateId, mget_mset_self]
    · simp only [auditLog, generateId]
      exact length_mset_of_mget s.domains k _ w hw

theorem custom_domain_uniqueness_witness :
    ∃ s1, requestCustomDomain "sch_0" "cursos.alpha.com.br" stCD =
        .ok (rerequested ((mget stCD.domains "dom_6").getD dfltDomain) "tok_8", s1) ∧
      mget s1.domains "dom_6" =
        some (rerequested ((mget stCD.domains "dom_6").getD dfltDomain) "tok_8") ∧
      s1.domains.length = stCD.domains.length := by
  have hno : ¬ ∃ tid cfg,
      mget stCD.byCustomDomain (normalizeDomain "cursos.alpha.com.br") = some tid ∧
      mget stCD.domains tid = some cfg ∧ cfg.schoolId ≠ "sch_0" := by
    rintro ⟨tid, cfg, h1, h2, h3⟩
    have e1 : mget stCD.byCustomDomain (normalizeDomain "cursos.alpha.com.br") =
        some "dom_6" := by decide
    rw [e1] at h1
    obtain rfl : "dom_6" = tid := Option.some.inj h1
    have e2 : mget stCD.domains "dom_6" =
        some ((mget stCD.domains "dom_6").getD dfltDomain) := by decide
    rw [e2] at h2
    obtain rfl := Option.some.inj h2
    exact h3 (by decide)
  have h := (custom_domain_uniqueness "sch_0" "cursos.alpha.com.br" stCD
    ((mget stCD.schools "sch_0").getD ⟨"", "", "", "", 0, 0⟩)
    (by decide) (by decide) (by decide) (by decide)).2
    "dom_6" ((mget stCD.domains "dom_6").getD dfltDomain)
    hno (by decide)
  exact h

/-! ### State-preservation lemmas for the webhook effect path -/

theorem ensureEnrollment_orders (a b c d : String) (s : DB) :
    (ensureEnrollment a b c d s).2.orders = s.orders := by
  simp only [ensureEnrollment]
  split
  · rfl
  · simp [auditLog, generateId]

theorem ensureEnrollment_payments (a b c d : String) (s : DB) :
    (ensureEnrollment a b c d s).2.payments = s.payments := by
  simp only [ensureEnrollment]
  split
  · rfl
  · simp [auditLog, generateId]

theorem ensureEnrollment_hasKey (a b c d : String) (s : DB) :
    (mget (ensureEnrollment a b c d s).2.enrollBySchoolBuyerCourse
      (a ++ ":" ++ b ++ ":" ++ c)).isSome = true := by
  simp only [ensureEnrollment]
  split
  · next eid heid => simp [heid]
  · simp [auditLog, generateId, mget_mset_self]

theorem applyWebhookResult_orders (orderId paymentId eventId schoolId result : String)
    (order : Order) (payment : Payment) (s : DB) :
    ∃ o1, (applyWebhookResult orderId paymentId eventId schoolId result order
        payment s).2.orders = mset s.orders orderId o1 ∧
      o1.amount = order.amount ∧ o1.currency = order.currency ∧
      o1.buyerEmail = order.buyerEmail ∧ o1.courseId = order.courseId ∧
      o1.status = (if result = "APPROVED" then "PAID" else "FAILED") := by
  simp only [applyWebhookResult]
  split
  · next hres =>
      refine ⟨{ order with status := "PAID", paidAt := some s.now, updatedAt := s.now },
        ?_, rfl, rfl, rfl, rfl, by simp [hres]⟩
      simp [ensureEnrollment_orders, auditLog, generateId]
  · next hres =>
      refine ⟨{ order with status := "FAILED", updatedAt := s.now },
        ?_, rfl, rfl, rfl, rfl, by simp [hres]⟩
      simp [auditLog, generateId]

theorem applyWebhookResult_payments (orderId paymentId eventId schoolId
    result : String) (order : Order) (payment : Payment) (s : DB) :
    ∃ p1, (applyWebhookResult orderId paymentId eventId schoolId result order
        payment s).2.payments = mset s.payments paymentId p1 ∧
      p1.status = (if result = "APPROVED" then "SUCCEEDED" else "FAILED") := by
  simp only [applyWebhookResult]
  split
  · next hres =>
      refine ⟨{ payment with status := "SUCCEEDED", updatedAt := s.now },
        ?_, by simp [hres]⟩
      simp [ensureEnrollment_payments, auditLog, generateId]
  · next hres =>
      refine ⟨{ payment with status := "FAILED", updatedAt := s.now },
        ?_, by simp [hres]⟩
      simp [auditLog, generateId]

theorem applyWebhookResult_enrollment (orderId paymentId eventId schoolId
    result : String) (order : Order) (payment : Payment) (s : DB)
    (hres : result = "APPROVED") :
    (mget (applyWebhookResult orderId paymentId eventId schoolId result order
        payment s).2.enrollBySchoolBuyerCourse
      (schoolId ++ ":" ++ order.buyerEmail ++ ":" ++ order.courseId)).isSome =
      true := by
  simp only [applyWebhookResult, hres]
  have h := ensureEnrollment_hasKey schoolId order.buyerEmail order.courseId order.id
    (let o1 : Order := { order with status := "PAID", paidAt := some s.now, updatedAt := s.now }
     let p1 : Payment := { payment with status := "SUCCEEDED", updatedAt := s.now }
     { s with orders := mset s.orders orderId o1, payments := mset s.payments paymentId p1 })
  simpa [auditLog, generateId] using h

theorem recordWebhookEvent_state (prov eventId schoolId orderId paymentId
    result : String) (payload : WebhookPayload) (sig : String)
    (applied : Order × DB) (snap : Snapshot) (s1 : DB)
    (h : recordWebhookEvent prov eventId schoolId orderId paymentId result
      payload sig applied = .ok (snap, s1)) :
    s1.orders = applied.2.orders ∧ s1.payments = applied.2.payments ∧
    s1.enrollBySchoolBuyerCourse = applied.2.enrollBySchoolBuyerCourse := by
  simp only [recordWebhookEvent, Except.ok.injEq, Prod.mk.injEq] at h
  obtain ⟨-, h2⟩ := h
  subst h2
  simp [auditLog, generateId]

/-- Every order's amount, currency, buyerEmail and courseId survive any
successful first-time webhook delivery (only status, paidAt, updatedAt
are touched, and only on the targeted order). -/
theorem receiveWebhookFresh_amount (prov : String) (payload : WebhookPayload)
    (sig : String) (s : DB) (snap : Snapshot) (s1 : DB) (oid : String) (o : Order)
    (h : receiveWebhookFresh prov payload sig s = .ok (snap, s1))
    (ho : mget s.orders oid = some o) :
    ∃ o1, mget s1.orders oid = some o1 ∧ o1.amount = o.amount ∧
      o1.currency = o.currency := by
  simp only [receiveWebhookFresh] at h
  split at h
  · exact absurd h (by simp)
  · split at h
    · exact absurd h (by simp)
    · split at h
      · exact absurd h (by simp)
      · split at h
        · exact absurd h (by simp)
        · split at h
          · exact absurd h (by simp)
          · next order horder =>
            split at h
            · exact absurd h (by simp)
            · split at h
              · exact absurd h (by simp)
              · next payment hpay =>
                split at h
                · exact absurd h (by simp)
                · split at h
                  · exact absurd h (by simp)
                  · obtain ⟨ho1, hmo, ham, hcur, -, -, -⟩ :=
                      applyWebhookResult_orders (jsTrim payload.orderId)
                        (jsTrim payload.paymentId) (jsTrim payload.eventId)
                        (jsTrim payload.schoolId)
                        (jsToUpper (jsTrim payload.result)) order payment s
                    obtain ⟨hords, -, -⟩ := recordWebhookEvent_state _ _ _ _ _ _ _ _ _ _ _ h
                    rw [hords, hmo]
                    by_cases hoid : jsTrim payload.orderId = oid
                    · subst hoid
                      rw [horder] at ho
                      obtain rfl := Option.some.inj ho
                      exact ⟨ho1, mget_mset_self _ _ _, ham, hcur⟩
                    · rw [mget_mset_ne _ _ _ _ hoid, ho]
                      exact ⟨o, rfl, rfl, rfl⟩

theorem receiveWebhook_amount (provider : String) (payload : WebhookPayload)
    (sig : String) (s : DB) (snap : Snapshot) (s1 : DB) (oid : String) (o : Order)
    (h : receiveWebhook provider payload sig s = .ok (snap, s1))
    (ho : mget s.orders oid = some o) :
    ∃ o1, mget s1.orders oid = some o1 ∧ o1.amount = o.amount ∧
      o1.currency = o.currency := by
  simp only [receiveWebhook] at h
  split at h
  · exact absurd h (by simp)
  · split at h
    · exact absurd h (by simp)
    · split at h
      · simp only [Except.ok.injEq, Prod.mk.injEq] at h
        obtain ⟨-, h2⟩ := h
        subst h2
        exact ⟨o, ho, rfl, rfl⟩
      · exact receiveWebhookFresh_amount _ _ _ _ _ _ _ _ h ho

theorem createOrder_ok_fields (schoolId courseId buyerEmail : String) (s : DB)
    (o : Order) (s1 : DB) (course : Course)
    (h : createOrder schoolId courseId buyerEmail s = .ok (o, s1))
    (hcourse : mget s.courses courseId = some course) :
    o.status = "PENDING" ∧ o.buyerEmail = jsToLower (jsTrim buyerEmail) ∧
    o.amount = getEffectivePrice course.pricing s.now ∧
    o.currency = course.pricing.currency := by
  simp only [createOrder] at h
  split at h
  · exact absurd h (by simp)
  · split at h
    · exact absurd h (by simp)
    · next course2 hcourse2 =>
      rw [hcourse] at hcourse2
      obtain rfl := Option.some.inj hcourse2
      split at h
      · exact absurd h (by simp)
      · split at h
        · exact absurd h (by simp)
        · split at h
          · exact absurd h (by simp)
          · simp only [Except.ok.injEq, Prod.mk.injEq] at h
            obtain ⟨h1, -⟩ := h
            rw [← h1]
            exact ⟨rfl, rfl, rfl, rfl⟩

/-- C9: createOrder succeeds exactly under the documented conditions —
school ACTIVE, course of that school PUBLISHED, trimmed buyer email
containing "@" — failing with COURSE_NOT_FOR_SALE on an unpublished
course and BUYER_EMAIL_INVALID on a bad email; on success the order is
PENDING, its buyerEmail is the trimmed lower-cased input, its amount
is the course's effective price at creation time and its currency is
copied from the course; and the frozen amount/currency are never
re-derived: startDemoCheckout leaves the orders table untouched and
receiveWebhook preserves every order's amount and currency. -/
theorem createOrder_spec (schoolId courseId buyerEmail : String) (s : DB) :
    (∀ sch course, mget s.schools schoolId = some sch → sch.status = "ACTIVE" →
      mget s.courses courseId = some course → course.schoolId = schoolId →
      course.state = "PUBLISHED" →
      jsContains (jsToLower (jsTrim buyerEmail)) '@' = true →
      ∃ o s1, createOrder schoolId courseId buyerEmail s = .ok (o, s1) ∧
        o.status = "PENDING" ∧
        o.buyerEmail = jsToLower (jsTrim buyerEmail) ∧
        o.amount = getEffectivePrice course.pricing s.now ∧
        o.currency = course.pricing.currency) ∧
    (∀ sch course, mget s.schools schoolId = some sch → sch.status = "ACTIVE" →
      mget s.courses courseId = some course → course.schoolId = schoolId →
      course.state ≠ "PUBLISHED" →
      createOrder schoolId courseId buyerEmail s = .error "COURSE_NOT_FOR_SALE") ∧
    (∀ sch course, mget s.schools schoolId = some sch → sch.status = "ACTIVE" →
      mget s.courses courseId = some course → course.schoolId = schoolId →
      course.state = "PUBLISHED" →
      jsContains (jsToLower (jsTrim buyerEmail)) '@' = false →
      createOrder schoolId courseId buyerEmail s = .error "BUYER_EMAIL_INVALID") ∧
    (∀ o s1, createOrder schoolId courseId buyerEmail s = .ok (o, s1) →
      ∃ sch course, mget s.schools schoolId = some sch ∧ sch.status = "ACTIVE" ∧
        mget s.courses courseId = some course ∧ course.schoolId = schoolId ∧
        course.state = "PUBLISHED" ∧
        jsContains (jsToLower (jsTrim buyerEmail)) '@' = true) ∧
    (∀ orderId outcome r s1,
      startDemoCheckout schoolId orderId outcome s = .ok (r, s1) →
      s1.orders = s.orders) ∧
    (∀ provider payload sig snap s1 oid o,
      receiveWebhook provider payload sig s = .ok (snap, s1) →
      mget s.orders oid = some o →
      ∃ o1, mget s1.orders oid = some o1 ∧ o1.amount = o.amount ∧
        o1.currency = o.currency) := by
  refine ⟨?_, ?_, ?_, ?_, ?_, ?_⟩
  · intro sch course hsch hact hcourse hown hpub hmail
    obtain ⟨r, hr⟩ : ∃ r, createOrder schoolId courseId buyerEmail s = .ok r := by
      simp [createOrder, assertSchoolActive_ok schoolId s sch hsch hact, hcourse,
        hown, hpub, hmail]
    obtain ⟨o, s1⟩ := r
    obtain ⟨hst, hbe, ham, hcu⟩ :=
      createOrder_ok_fields schoolId courseId buyerEmail s o s1 course hr hcourse
    exact ⟨o, s1, hr, hst, hbe, ham, hcu⟩
  · intro sch course hsch hact hcourse hown hnpub
    simp [createOrder, assertSchoolActive_ok schoolId s sch hsch hact, hcourse,
      hown, hnpub]
  · intro sch course hsch hact hcourse hown hpub hmail
    simp [createOrder, assertSchoolActive_ok schoolId s sch hsch hact, hcourse,
      hown, hpub, hmail]
  · intro o s1 h
    simp only [createOrder] at h
    split at h
    · exact absurd h (by simp)
    · next sch hsch =>
      split at h
      · exact absurd h (by simp)
      · next course hcourse =>
        split at h
        · exact absurd h (by simp)
        · next hown =>
          split at h
          · exact absurd h (by simp)
          · next hpub =>
            split at h
            · exact absurd h (by simp)
            · next hmail =>
              refine ⟨sch, course, ?_, ?_, hcourse, not_not.mp hown,
                not_not.mp hpub, ?_⟩
              · simp only [assertSchoolActive] at hsch
                split at hsch
                · exact absurd hsch (by simp)
                · next sch2 hsch2 =>
                  split at hsch
                  · exact absurd hsch (by simp)
                  · obtain rfl := Except.ok.inj hsch
                    exact hsch2
              · simp only [assertSchoolActive] at hsch
                split at hsch
                · exact absurd hsch (by simp)
                · next sch2 hsch2 =>
                  split at hsch
                  · exact absurd hsch (by simp)
                  · next hst =>
                    obtain rfl := Except.ok.inj hsch
                    exact not_not.mp hst
              · simpa using hmail
  · exact fun orderId outcome r s1 h =>
      startDemoCheckout_orders_unchanged _ _ _ _ _ _ h
  · exact fun provider payload sig snap s1 oid o h ho =>
      receiveWebhook_amount _ _ _ _ _ _ _ _ h ho

theorem createOrder_spec_witness :
    ∃ o s1, createOrder "sch_0" "crs_5" " A@b.com " st4 = .ok (o, s1) ∧
      o.status = "PENDING" ∧
      o.buyerEmail = jsToLower (jsTrim " A@b.com ") ∧
      o.amount = getEffectivePrice ((mget st4.courses "crs_5").getD dfltCourse).pricing
        st4.now ∧
      o.currency = ((mget st4.courses "crs_5").getD dfltCourse).pricing.currency :=
  (createOrder_spec "sch_0" "crs_5" " A@b.com " st4).1
    ((mget st4.schools "sch_0").getD ⟨"", "", "", "", 0, 0⟩)
    ((mget st4.courses "crs_5").getD dfltCourse)
    (by decide) (by decide) (by decide) (by decide) (by decide) (by decide)

theorem recordWebhookEvent_isOk (prov eventId schoolId orderId paymentId
    result : String) (payload : WebhookPayload) (sig : String)
    (applied : Order × DB) :
    ∃ snap s1, recordWebhookEvent prov eventId schoolId orderId paymentId result
      payload sig applied = .ok (snap, s1) :=
  ⟨_, _, rfl⟩

/-- On a fully valid first-time delivery, receiveWebhook reaches the
effect-application and recording step. -/
theorem receiveWebhook_valid_runs (payload : WebhookPayload) (sig : String)
    (s : DB) (g : GatewayConfig) (order : Order) (payment : Payment)
    (hne : jsTrim payload.eventId ≠ "")
    (hfresh : mget s.webhookEvents (jsTrim payload.eventId) = none)
    (hs : jsTrim payload.schoolId ≠ "") (ho : jsTrim payload.orderId ≠ "")
    (hp : jsTrim payload.paymentId ≠ "")
    (hres : jsToUpper (jsTrim payload.result) = "APPROVED" ∨
      jsToUpper (jsTrim payload.result) = "DECLINED")
    (hg : mget s.gateway (jsTrim payload.schoolId) = some g)
    (hsig : jsTrim sig = hmacSha256 g.webhookSecret (stableStringifyPayload payload))
    (hord : mget s.orders (jsTrim payload.orderId) = some order)
    (hown : order.schoolId = jsTrim payload.schoolId)
    (hpay : mget s.payments (jsTrim payload.paymentId) = some payment)
    (hpo : payment.schoolId = jsTrim payload.schoolId)
    (hpm : payment.orderId = jsTrim payload.orderId) :
    receiveWebhook "DEMO" payload sig s =
      recordWebhookEvent "DEMO" (jsTrim payload.eventId) (jsTrim payload.schoolId)
        (jsTrim payload.orderId) (jsTrim payload.paymentId)
        (jsToUpper (jsTrim payload.result)) payload sig
        (applyWebhookResult (jsTrim payload.orderId) (jsTrim payload.paymentId)
          (jsTrim payload.eventId) (jsTrim payload.schoolId)
          (jsToUpper (jsTrim payload.result)) order payment s) := by
  have hres2 : ¬ (jsToUpper (jsTrim payload.result) ≠ "APPROVED" ∧
      jsToUpper (jsTrim payload.result) ≠ "DECLINED") := by
    rcases hres with h | h <;> simp [h]
  have hdemo : jsToUpper (jsTrim "DEMO") = "DEMO" := by decide
  simp [receiveWebhook, receiveWebhookFresh, hne, hfresh, hs, ho, hp, hres2, hg,
    hsig, hord, hown, hpay, hpo, hpm, provOf, hdemo]

/-- C10: receiveWebhook never checks the school's status.  A first-time
delivery that passes provider, payload, signature and order/payment
ownership validation is fully applied — order PAID/FAILED, payment
SUCCEEDED/FAILED, enrollment granted on APPROVED — even when the
referenced school is SUSPENDED, while createOrder and startDemoCheckout
reject the same suspended school with SCHOOL_SUSPENDED. -/
theorem webhook_ignores_school_status (payload : WebhookPayload) (sig : String)
    (s : DB) (g : GatewayConfig) (order : Order) (payment : Payment) (sch : School)
    (hne : jsTrim payload.eventId ≠ "")
    (hfresh : mget s.webhookEvents (jsTrim payload.eventId) = none)
    (hs : jsTrim payload.schoolId ≠ "") (ho : jsTrim payload.orderId ≠ "")
    (hp : jsTrim payload.paymentId ≠ "")
    (hres : jsToUpper (jsTrim payload.result) = "APPROVED" ∨
      jsToUpper (jsTrim payload.result) = "DECLINED")
    (hg : mget s.gateway (jsTrim payload.schoolId) = some g)
    (hsig : jsTrim sig = hmacSha256 g.webhookSecret (stableStringifyPayload payload))
    (hord : mget s.orders (jsTrim payload.orderId) = some order)
    (hown : order.schoolId = jsTrim payload.schoolId)
    (hpay : mget s.payments (jsTrim payload.paymentId) = some payment)
    (hpo : payment.schoolId = jsTrim payload.schoolId)
    (hpm : payment.orderId = jsTrim payload.orderId)
    (hschool : mget s.schools (jsTrim payload.schoolId) = some sch)
    (hsus : sch.status = "SUSPENDED") :
    (∃ snap s1, receiveWebhook "DEMO" payload sig s = .ok (snap, s1) ∧
      (jsToUpper (jsTrim payload.result) = "APPROVED" →
        (mget s1.orders (jsTrim payload.orderId)).map Order.status = some "PAID" ∧
        (mget s1.payments (jsTrim payload.paymentId)).map Payment.status =
          some "SUCCEEDED" ∧
        (mget s1.enrollBySchoolBuyerCourse (jsTrim payload.schoolId ++ ":" ++
          order.buyerEmail ++ ":" ++ order.courseId)).isSome = true) ∧
      (jsToUpper (jsTrim payload.result) = "DECLINED" →
        (mget s1.orders (jsTrim payload.orderId)).map Order.status = some "FAILED" ∧
        (mget s1.payments (jsTrim payload.paymentId)).map Payment.status =
          some "FAILED")) ∧
    (∀ cid email, createOrder (jsTrim payload.schoolId) cid email s =
      .error "SCHOOL_SUSPENDED") ∧
    (∀ oid oc, startDemoCheckout (jsTrim payload.schoolId) oid oc s =
      .error "SCHOOL_SUSPENDED") := by
  have hrun := receiveWebhook_valid_runs payload sig s g order payment hne hfresh
    hs ho hp hres hg hsig hord hown hpay hpo hpm
  obtain ⟨snap, s1, hok⟩ := recordWebhookEvent_isOk "DEMO" (jsTrim payload.eventId)
    (jsTrim payload.schoolId) (jsTrim payload.orderId) (jsTrim payload.paymentId)
    (jsToUpper (jsTrim payload.result)) payload sig
    (applyWebhookResult (jsTrim payload.orderId) (jsTrim payload.paymentId)
      (jsTrim payload.eventId) (jsTrim payload.schoolId)
      (jsToUpper (jsTrim payload.result)) order payment s)
  obtain ⟨hords, hpays, henr⟩ := recordWebhookEvent_state _ _ _ _ _ _ _ _ _ _ _ hok
  obtain ⟨o1, hmo, -, -, -, -, host⟩ := applyWebhookResult_orders
    (jsTrim payload.orderId) (jsTrim payload.paymentId) (jsTrim payload.eventId)
    (jsTrim payload.schoolId) (jsToUpper (jsTrim payload.result)) order payment s
  obtain ⟨p1, hmp, hpst⟩ := applyWebhookResult_payments
    (jsTrim payload.orderId) (jsTrim payload.paymentId) (jsTrim payload.eventId)
    (jsTrim payload.schoolId) (jsToUpper (jsTrim payload.result)) order payment s
  refine ⟨⟨snap, s1, hrun.trans hok, ?_, ?_⟩, ?_, ?_⟩
  · intro hap
    refine ⟨?_, ?_, ?_⟩
    · rw [hords, hmo, mget_mset_self]
      simp [host, hap]
    · rw [hpays, hmp, mget_mset_self]
      simp [hpst, hap]
    · rw [henr]
      exact applyWebhookResult_enrollment _ _ _ _ _ order payment s hap
  · intro hde
    have hna : jsToUpper (jsTrim payload.result) ≠ "APPROVED" := by
      rw [hde]; decide
    refine ⟨?_, ?_⟩
    · rw [hords, hmo, mget_mset_self]
      simp [host, hna]
    · rw [hpays, hmp, mget_mset_self]
      simp [hpst, hna]
  · intro cid email
    simp [createOrder, assertSchoolActive, hschool, hsus]
  · intro oid oc
    simp [startDemoCheckout, assertSchoolActive, hschool, hsus]

theorem webhook_ignores_school_status_witness :
    ∃ snap s1,
      receiveWebhook "DEMO" chk1.webhook.payload chk1.webhook.signature stS =
        .ok (snap, s1) ∧
      (mget s1.orders "ord_9").map Order.status = some "PAID" ∧
      (mget stS.schools "sch_0").map School.status = some "SUSPENDED" ∧
      createOrder "sch_0" "crs_5" "x@y.com" stS = .error "SCHOOL_SUSPENDED" := by
  obtain ⟨⟨snap, s1, hok, hap, -⟩, hco, -⟩ := webhook_ignores_school_status
    chk1.webhook.payload chk1.webhook.signature stS
    ((mget stS.gateway "sch_0").getD ⟨"", "", "", "", 0⟩)
    ((mget stS.orders "ord_9").getD dfltOrder)
    ((mget stS.payments "pay_11").getD ⟨"", "", "", "", "", 0, 0⟩)
    ((mget stS.schools "sch_0").getD ⟨"", "", "", "", 0, 0⟩)
    (by decide) (by decide) (by decide) (by decide) (by decide)
    (Or.inl (by decide)) (by decide) (by decide) (by decide) (by decide)
    (by decide) (by decide) (by decide) (by decide) (by decide)
  refine ⟨snap, s1, hok, ?_, by decide, ?_⟩
  · exact (hap (by decide)).1
  · exact hco "crs_5" "x@y.com"

/-! ### Signature integrity -/

theorem startDemoCheckout_signs (schoolId orderId outcome : String) (s : DB)
    (r : CheckoutResult) (s1 : DB)
    (h : startDemoCheckout schoolId orderId outcome s = .ok (r, s1)) :
    ∃ g, mget s.gateway schoolId = some g ∧
      r.webhook.signature =
        hmacSha256 g.webhookSecret (stableStringifyPayload r.webhook.payload) := by
  simp only [startDemoCheckout] at h
  split at h
  · exact absurd h (by simp)
  · split at h
    · exact absurd h (by simp)
    · split at h
      · exact absurd h (by simp)
      · split at h
        · exact absurd h (by simp)
        · split at h
          · exact absurd h (by simp)
          · next g hg =>
            split at h
            · exact absurd h (by simp)
            · split at h
              · exact absurd h (by simp)
              · simp only [Except.ok.injEq, Prod.mk.injEq] at h
                obtain ⟨h1, -⟩ := h
                rw [← h1]
                exact ⟨g, hg, rfl⟩

/-- C3: signature integrity.  For a first-time delivery whose payload
passes provider/eventId/field/result validation and whose school has a
gateway, receiveWebhook throws WEBHOOK_SIGNATURE_INVALID exactly when
the (trimmed) supplied signature differs from HMAC-SHA256 of the
canonical key-sorted serialization of the delivered payload under the
school's current webhook secret; hence redelivering a signature made
for one payload with any payload whose canonical serialization differs
(same school) fails WEBHOOK_SIGNATURE_INVALID; and startDemoCheckout
returns exactly the pair signed with the school's current secret, so
the unmodified pair passes verification while the secret is unchanged. -/
theorem webhook_signature_integrity (payload : WebhookPayload) (sig : String)
    (s : DB) (g : GatewayConfig)
    (hne : jsTrim payload.eventId ≠ "")
    (hfresh : mget s.webhookEvents (jsTrim payload.eventId) = none)
    (hs : jsTrim payload.schoolId ≠ "") (ho : jsTrim payload.orderId ≠ "")
    (hp : jsTrim payload.paymentId ≠ "")
    (hres : jsToUpper (jsTrim payload.result) = "APPROVED" ∨
      jsToUpper (jsTrim payload.result) = "DECLINED")
    (hg : mget s.gateway (jsTrim payload.schoolId) = some g) :
    ((receiveWebhook "DEMO" payload sig s = .error "WEBHOOK_SIGNATURE_INVALID") ↔
      jsTrim sig ≠ hmacSha256 g.webhookSecret (stableStringifyPayload payload)) ∧
    (∀ (p2 : WebhookPayload) (sig2 : String),
      jsTrim p2.eventId ≠ "" →
      mget s.webhookEvents (jsTrim p2.eventId) = none →
      jsTrim p2.schoolId = jsTrim payload.schoolId →
      jsTrim p2.orderId ≠ "" → jsTrim p2.paymentId ≠ "" →
      (jsToUpper (jsTrim p2.result) = "APPROVED" ∨
        jsToUpper (jsTrim p2.result) = "DECLINED") →
      stableStringifyPayload p2 ≠ stableStringifyPayload payload →
      jsTrim sig2 = hmacSha256 g.webhookSecret (stableStringifyPayload payload) →
      receiveWebhook "DEMO" p2 sig2 s = .error "WEBHOOK_SIGNATURE_INVALID") ∧
    (∀ schoolId orderId outcome (s2 : DB) (r : CheckoutResult) (s3 : DB),
      startDemoCheckout schoolId orderId outcome s2 = .ok (r, s3) →
      ∃ g2, mget s2.gateway schoolId = some g2 ∧
        r.webhook.signature =
          hmacSha256 g2.webhookSecret (stableStringifyPayload r.webhook.payload)) := by
  have hdemo : jsToUpper (jsTrim "DEMO") = "DEMO" := by decide
  have hres2 : ¬ (jsToUpper (jsTrim payload.result) ≠ "APPROVED" ∧
      jsToUpper (jsTrim payload.result) ≠ "DECLINED") := by
    rcases hres with h | h <;> simp [h]
  refine ⟨⟨?_, ?_⟩, ?_, ?_⟩
  · intro herr
    by_contra hss
    simp [receiveWebhook, receiveWebhookFresh, provOf, hdemo, hne, hfresh, hs, ho,
      hp, hres2, hg, hss] at herr
    repeat'
      first
        | exact absurd (Except.error.inj herr) (by decide)
        | split at herr
    obtain ⟨snap, s1, hok⟩ := recordWebhookEvent_isOk "DEMO"
      (jsTrim payload.eventId) (jsTrim payload.schoolId)
      (jsTrim payload.orderId) (jsTrim payload.paymentId)
      (jsToUpper (jsTrim payload.result)) payload sig _
    rw [hok] at herr
    exact absurd herr (by simp)
  · intro hss
    simp [receiveWebhook, receiveWebhookFresh, provOf, hdemo, hne, hfresh, hs, ho,
      hp, hres2, hg, hss]
  · intro p2 sig2 hne2 hfresh2 hsch2 ho2 hp2 hres02 hdiff hsig2
    have hres22 : ¬ (jsToUpper (jsTrim p2.result) ≠ "APPROVED" ∧
        jsToUpper (jsTrim p2.result) ≠ "DECLINED") := by
      rcases hres02 with h | h <;> simp [h]
    have hg2 : mget s.gateway (jsTrim p2.schoolId) = some g := by rw [hsch2]; exact hg
    have hss : jsTrim sig2 ≠
        hmacSha256 g.webhookSecret (stableStringifyPayload p2) := by
      rw [hsig2]
      intro hcol
      exact hdiff (hmacSha256_inj_message g.webhookSecret _ _ hcol).symm
    have hs2 : jsTrim p2.schoolId ≠ "" := by rw [hsch2]; exact hs
    simp [receiveWebhook, receiveWebhookFresh, provOf, hdemo, hne2, hfresh2,
      hs2, hres22, hg2, hss, ho2, hp2]
  · exact fun schoolId orderId outcome s2 r s3 h =>
      startDemoCheckout_signs schoolId orderId outcome s2 r s3 h

/-- The APPROVED checkout payload with its result field flipped to
DECLINED — a first-time delivery of it must fail signature checking. -/
def tampered : WebhookPayload := { chk1.webhook.payload with result := "DECLINED" }

theorem webhook_signature_integrity_witness :
    receiveWebhook "DEMO" tampered chk1.webhook.signature st7 =
      .error "WEBHOOK_SIGNATURE_INVALID" := by
  have h := (webhook_signature_integrity chk1.webhook.payload
    chk1.webhook.signature st7 ((mget st7.gateway "sch_0").getD ⟨"", "", "", "", 0⟩)
    (by decide) (by decide) (by decide) (by decide) (by decide)
    (Or.inl (by decide)) (by decide)).2.1
  exact h tampered chk1.webhook.signature (by decide) (by decide) (by decide)
    (by decide) (by decide) (Or.inr (by decide)) (by decide) (by decide)

/-! ### Course state machine -/

/-- Position of a course state in the forward order
DRAFT < DRAFTING_STRUCTURE < STRUCTURE_APPROVED < GENERATING_FULL <
DRAFT_READY < PUBLISHED. -/
def stateRank : String → Nat
  | "DRAFT" => 0
  | "DRAFTING_STRUCTURE" => 1
  | "STRUCTURE_APPROVED" => 2
  | "GENERATING_FULL" => 3
  | "DRAFT_READY" => 4
  | "PUBLISHED" => 5
  | _ => 0

theorem aiGenerateStructure_ok_states (schoolId courseId : String)
    (inputs : AiInputs) (s : DB) (c c1 : Course) (s1 : DB)
    (hc : mget s.courses courseId = some c)
    (h : aiGenerateStructure schoolId courseId inputs s = .ok (c1, s1)) :
    c.state = "DRAFT" ∧ c1.state = "DRAFTING_STRUCTURE" ∧
    mget s1.courses courseId = some c1 := by
  simp only [aiGenerateStructure] at h
  split at h
  · exact absurd h (by simp)
  · split at h
    · exact absurd h (by simp)
    · next course hcourse =>
      rw [hc] at hcourse
      obtain rfl := Option.some.inj hcourse
      split at h
      · exact absurd h (by simp)
      · split at h
        · exact absurd h (by simp)
        · split at h
          · exact absurd h (by simp)
          · next hstate =>
            split at h
            · exact absurd h (by simp)
            · simp only [Except.ok.injEq, Prod.mk.injEq] at h
              obtain ⟨h1, h2⟩ := h
              subst h2
              refine ⟨not_not.mp hstate, by rw [← h1], ?_⟩
              rw [← h1]
              simp [auditLog, generateId, mget_mset_self]

theorem editCourseStructure_ok_states (schoolId courseId : String)
    (st : CourseStructure) (s : DB) (c c1 : Course) (s1 : DB)
    (hc : mget s.courses courseId = some c)
    (h : editCourseStructure schoolId courseId st s = .ok (c1, s1)) :
    c.state = "DRAFTING_STRUCTURE" ∧ c1.state = "DRAFTING_STRUCTURE" ∧
    mget s1.courses courseId = some c1 := by
  simp only [editCourseStructure] at h
  split at h
  · exact absurd h (by simp)
  · split at h
    · exact absurd h (by simp)
    · next course hcourse =>
      rw [hc] at hcourse
      obtain rfl := Option.some.inj hcourse
      split at h
      · exact absurd h (by simp)
      · split at h
        · exact absurd h (by simp)
        · next hstate =>
          split at h
          · exact absurd h (by simp)
          · split at h
            · exact absurd h (by simp)
            · simp only [Except.ok.injEq, Prod.mk.injEq] at h
              obtain ⟨h1, h2⟩ := h
              subst h2
              refine ⟨not_not.mp hstate, ?_, ?_⟩
              · rw [← h1]
                exact not_not.mp hstate
              · rw [← h1]
                simp [auditLog, generateId, mget_mset_self]

theorem approveCourseStructure_ok_states (schoolId courseId : String) (s : DB)
    (c c1 : Course) (s1 : DB)
    (hc : mget s.courses courseId = some c)
    (h : approveCourseStructure schoolId courseId s = .ok (c1, s1)) :
    c.state = "DRAFTING_STRUCTURE" ∧ c1.state = "STRUCTURE_APPROVED" ∧
    mget s1.courses courseId = some c1 := by
  simp only [approveCourseStructure] at h
  split at h
  · exact absurd h (by simp)
  · split at h
    · exact absurd h (by simp)
    · next course hcourse =>
      rw [hc] at hcourse
      obtain rfl := Option.some.inj hcourse
      split at h
      · exact absurd h (by simp)
      · split at h
        · exact absurd h (by simp)
        · next hstate =>
          split at h
          · exact absurd h (by simp)
          · simp only [Except.ok.injEq, Prod.mk.injEq] at h
            obtain ⟨h1, h2⟩ := h
            subst h2
            refine ⟨not_not.mp hstate, by rw [← h1], ?_⟩
            rw [← h1]
            simp [auditLog, generateId, mget_mset_self]

theorem aiGenerateFullCourse_ok_states (schoolId courseId : String) (s : DB)
    (c c1 : Course) (s1 : DB)
    (hc : mget s.courses courseId = some c)
    (h : aiGenerateFullCourse schoolId courseId s = .ok (c1, s1)) :
    c.state = "STRUCTURE_APPROVED" ∧ c1.state = "DRAFT_READY" ∧
    mget s1.courses courseId = some c1 := by
  simp only [aiGenerateFullCourse] at h
  split at h
  · exact absurd h (by simp)
  · split at h
    · exact absurd h (by simp)
    · next course hcourse =>
      rw [hc] at hcourse
      obtain rfl := Option.some.inj hcourse
      split at h
      · exact absurd h (by simp)
      · split at h
        · exact absurd h (by simp)
        · split at h
          · exact absurd h (by simp)
          · next hstate =>
            simp only [Except.ok.injEq, Prod.mk.injEq] at h
            obtain ⟨h1, h2⟩ := h
            subst h2
            refine ⟨not_not.mp hstate, by rw [← h1], ?_⟩
            rw [← h1]
            simp [auditLog, generateId, mget_mset_self]

theorem setImportStructure_ok_states (schoolId courseId : String)
    (st : CourseStructure) (s : DB) (c c1 : Course) (s1 : DB)
    (hc : mget s.courses courseId = some c)
    (h : setImportStructure schoolId courseId st s = .ok (c1, s1)) :
    c.state = "DRAFT" ∧ c1.state = "DRAFT_READY" ∧
    mget s1.courses courseId = some c1 := by
  simp only [setImportStructure] at h
  split at h
  · exact absurd h (by simp)
  · split at h
    · exact absurd h (by simp)
    · next course hcourse =>
      rw [hc] at hcourse
      obtain rfl := Option.some.inj hcourse
      split at h
      · exact absurd h (by simp)
      · split at h
        · exact absurd h (by simp)
        · split at h
          · exact absurd h (by simp)
          · next hstate =>
            split at h
            · exact absurd h (by simp)
            · simp only [Except.ok.injEq, Prod.mk.injEq] at h
              obtain ⟨h1, h2⟩ := h
              subst h2
              refine ⟨not_not.mp hstate, by rw [← h1], ?_⟩
              rw [← h1]
              simp [auditLog, generateId, mget_mset_self]

theorem publishCourse_ok_states (schoolId courseId : String) (s : DB)
    (c c1 : Course) (s1 : DB)
    (hc : mget s.courses courseId = some c)
    (h : publishCourse schoolId courseId s = .ok (c1, s1)) :
    c.state = "DRAFT_READY" ∧ c1.state = "PUBLISHED" ∧
    c1.publishedAt = some s.now ∧ mget s1.courses courseId = some c1 := by
  simp only [publishCourse] at h
  split at h
  · exact absurd h (by simp)
  · split at h
    · exact absurd h (by simp)
    · next course hcourse =>
      rw [hc] at hcourse
      obtain rfl := Option.some.inj hcourse
      split at h
      · exact absurd h (by simp)
      · split at h
        · exact absurd h (by simp)
        · next hstate =>
          simp only [Except.ok.injEq, Prod.mk.injEq] at h
          obtain ⟨h1, h2⟩ := h
          subst h2
          refine ⟨not_not.mp hstate, by rw [← h1], by rw [← h1], ?_⟩
          rw [← h1]
          simp [auditLog, generateId, mget_mset_self]

/-- C8: monotonic course state machine.  Each lifecycle operation
succeeds only from its fixed source state and moves the course to a
state of equal or higher rank (never backward); publish succeeds only
from DRAFT_READY — on a DRAFT course it throws
COURSE_NOT_READY_TO_PUBLISH — and stamps publishedAt; and PUBLISHED is
terminal: no lifecycle operation ever succeeds on a PUBLISHED course,
so its state and publishedAt are never changed again. -/
theorem course_state_machine (schoolId courseId : String) (s : DB) (c : Course)
    (hc : mget s.courses courseId = some c) :
    (∀ inputs c1 s1, aiGenerateStructure schoolId courseId inputs s = .ok (c1, s1) →
      c.state = "DRAFT" ∧ c1.state = "DRAFTING_STRUCTURE" ∧
      stateRank c.state ≤ stateRank c1.state ∧ mget s1.courses courseId = some c1) ∧
    (∀ st c1 s1, editCourseStructure schoolId courseId st s = .ok (c1, s1) →
      c.state = "DRAFTING_STRUCTURE" ∧ c1.state = "DRAFTING_STRUCTURE" ∧
      stateRank c.state ≤ stateRank c1.state ∧ mget s1.courses courseId = some c1) ∧
    (∀ c1 s1, approveCourseStructure schoolId courseId s = .ok (c1, s1) →
      c.state = "DRAFTING_STRUCTURE" ∧ c1.state = "STRUCTURE_APPROVED" ∧
      stateRank c.state ≤ stateRank c1.state ∧ mget s1.courses courseId = some c1) ∧
    (∀ c1 s1, aiGenerateFullCourse schoolId courseId s = .ok (c1, s1) →
      c.state = "STRUCTURE_APPROVED" ∧ c1.state = "DRAFT_READY" ∧
      stateRank c.state ≤ stateRank c1.state ∧ mget s1.courses courseId = some c1) ∧
    (∀ st c1 s1, setImportStructure schoolId courseId st s = .ok (c1, s1) →
      c.state = "DRAFT" ∧ c1.state = "DRAFT_READY" ∧
      stateRank c.state ≤ stateRank c1.state ∧ mget s1.courses courseId = some c1) ∧
    (∀ c1 s1, publishCourse schoolId courseId s = .ok (c1, s1) →
      c.state = "DRAFT_READY" ∧ c1.state = "PUBLISHED" ∧
      c1.publishedAt = some s.now ∧
      stateRank c.state ≤ stateRank c1.state ∧ mget s1.courses courseId = some c1) ∧
    (∀ sch, mget s.schools schoolId = some sch → sch.status = "ACTIVE" →
      c.schoolId = schoolId → c.state = "DRAFT" →
      publishCourse schoolId courseId s = .error "COURSE_NOT_READY_TO_PUBLISH") ∧
    (c.state = "PUBLISHED" →
      (∀ inputs r, aiGenerateStructure schoolId courseId inputs s ≠ .ok r) ∧
      (∀ st r, editCourseStructure schoolId courseId st s ≠ .ok r) ∧
      (∀ r, approveCourseStructure schoolId courseId s ≠ .ok r) ∧
      (∀ r, aiGenerateFullCourse schoolId courseId s ≠ .ok r) ∧
      (∀ st r, setImportStructure schoolId courseId st s ≠ .ok r) ∧
      (∀ r, publishCourse schoolId courseId s ≠ .ok r)) := by
  refine ⟨?_, ?_, ?_, ?_, ?_, ?_, ?_, ?_⟩
  · intro inputs c1 s1 h
    obtain ⟨h1, h2, h3⟩ := aiGenerateStructure_ok_states _ _ _ _ _ _ _ hc h
    exact ⟨h1, h2, by rw [h1, h2]; decide, h3⟩
  · intro st c1 s1 h
    obtain ⟨h1, h2, h3⟩ := editCourseStructure_ok_states _ _ _ _ _ _ _ hc h
    exact ⟨h1, h2, by rw [h1, h2], h3⟩
  · intro c1 s1 h
    obtain ⟨h1, h2, h3⟩ := approveCourseStructure_ok_states _ _ _ _ _ _ hc h
    exact ⟨h1, h2, by rw [h1, h2]; decide, h3⟩
  · intro c1 s1 h
    obtain ⟨h1, h2, h3⟩ := aiGenerateFullCourse_ok_states _ _ _ _ _ _ hc h
    exact ⟨h1, h2, by rw [h1, h2]; decide, h3⟩
  · intro st c1 s1 h
    obtain ⟨h1, h2, h3⟩ := setImportStructure_ok_states _ _ _ _ _ _ _ hc h
    exact ⟨h1, h2, by rw [h1, h2]; decide, h3⟩
  · intro c1 s1 h
    obtain ⟨h1, h2, h3, h4⟩ := publishCourse_ok_states _ _ _ _ _ _ hc h
    exact ⟨h1, h2, h3, by rw [h1, h2]; decide, h4⟩
  · intro sch hsch hact hacc hdraft
    have hnr : c.state ≠ "DRAFT_READY" := by rw [hdraft]; decide
    simp [publishCourse, assertSchoolActive_ok schoolId s sch hsch hact, hc,
      hacc, hnr]
  · intro hpub
    refine ⟨?_, ?_, ?_, ?_, ?_, ?_⟩
    · intro inputs r h
      obtain ⟨c1, s1⟩ := r
      obtain ⟨h1, -, -⟩ := aiGenerateStructure_ok_states _ _ _ _ _ _ _ hc h
      exact absurd (hpub.symm.trans h1) (by decide)
    · intro st r h
      obtain ⟨c1, s1⟩ := r
      obtain ⟨h1, -, -⟩ := editCourseStructure_ok_states _ _ _ _ _ _ _ hc h
      exact absurd (hpub.symm.trans h1) (by decide)
    · intro r h
      obtain ⟨c1, s1⟩ := r
      obtain ⟨h1, -, -⟩ := approveCourseStructure_ok_states _ _ _ _ _ _ hc h
      exact absurd (hpub.symm.trans h1) (by decide)
    · intro r h
      obtain ⟨c1, s1⟩ := r
      obtain ⟨h1, -, -⟩ := aiGenerateFullCourse_ok_states _ _ _ _ _ _ hc h
      exact absurd (hpub.symm.trans h1) (by decide)
    · intro st r h
      obtain ⟨c1, s1⟩ := r
      obtain ⟨h1, -, -⟩ := setImportStructure_ok_states _ _ _ _ _ _ _ hc h
      exact absurd (hpub.symm.trans h1) (by decide)
    · intro r h
      obtain ⟨c1, s1⟩ := r
      obtain ⟨h1, -, -, -⟩ := publishCourse_ok_states _ _ _ _ _ _ hc h
      exact absurd (hpub.symm.trans h1) (by decide)

theorem course_state_machine_witness :
    publishCourse "sch_0" "crs_5" st2 = .error "COURSE_NOT_READY_TO_PUBLISH" := by
  have h := course_state_machine "sch_0" "crs_5" st2
    ((mget st2.courses "crs_5").getD dfltCourse) (by decide)
  exact h.2.2.2.2.2.2.1 ((mget st2.schools "sch_0").getD ⟨"", "", "", "", 0, 0⟩)
    (by decide) (by decide) (by decide) (by decide)

end Plataforma
